import Mathlib

/-!
# Verification of the adaptive ensemble forecasting engine (`predictionLogic.js`)

Shallow embedding of the prediction engine in `src/predictionLogic.js`.
JavaScript numbers are modelled as exact rationals (`ℚ`); `Infinity` (used
only by the drift detector's minima) is modelled as `⊤` in `WithTop ℚ`.
`Math.sqrt` and `Math.log2` are irrational-valued, so functions that call
them take the numeric function as an explicit parameter (`sq`, `lg`); every
theorem below either quantifies over that parameter or fixes an arbitrary
concrete one, because none of the verified properties depends on its values.
Fallible JS functions that return `null` become `Option`-valued functions.
Mutable module-level state (the signal-performance table, the drift detector,
the reflexive-correction counters) is passed explicitly and returned.
-/

namespace Pred

/-- The two outcome classes, `"BIG"` and `"SMALL"` in the source. -/
inductive BS where
  | big
  | small
deriving DecidableEq, Repr

/-- `getBigSmallFromNumber` (predictionLogic.js:6-11): `null`/`NaN` input is
modelled as `none`; digits 0-4 map to SMALL, 5-9 to BIG, anything else to
`null`. -/
def getBigSmallFromNumber : Option ℤ → Option BS
  | none => none
  | some n => if 0 ≤ n ∧ n ≤ 4 then some BS.small
              else if 5 ≤ n ∧ n ≤ 9 then some BS.big
              else none

/-- One history record (only the fields the verified functions read).
`actual = none` models `null`; `actualNumber = none` models `undefined`;
`statusWinLoss` models `status === "Win" || status === "Loss"`. -/
structure HistoryRecord where
  actual : Option ℤ
  actualNumber : Option ℤ
  statusWinLoss : Bool
deriving DecidableEq, Repr

/-- The numeric projection `parseInt(entry.actualNumber || entry.actual)`
used throughout the context classifier: JS `||` falls back to `actual`
when `actualNumber` is `undefined` **or** the (falsy) number `0`;
an unparseable value yields `NaN`, modelled as `none`. -/
def numFromRecord (e : HistoryRecord) : Option ℤ :=
  match e.actualNumber with
  | some k => if k = 0 then e.actual else some k
  | none => e.actual

/-- `calculateSMA` (predictionLogic.js:17-22). -/
def calculateSMA (data : List ℚ) (period : ℕ) : Option ℚ :=
  if data.length < period ∨ period = 0 then none
  else some (((data.take period).foldl (· + ·) 0) / period)

/-- `calculateEMA` (predictionLogic.js:24-42): seeds with the SMA of the
oldest `period` entries, then rolls forward chronologically with
`k = 2/(period+1)`. -/
def calculateEMA (data : List ℚ) (period : ℕ) : Option ℚ :=
  if data.length < period ∨ period = 0 then none
  else
    let k : ℚ := 2 / (period + 1)
    let chronological := data.reverse
    let seed : ℚ := ((chronological.take period).foldl (· + ·) 0) / period
    some ((chronological.drop period).foldl (fun ema x => x * k + ema * (1 - k)) seed)

/-- `calculateStdDev` (predictionLogic.js:44-51); `Math.sqrt` is the
parameter `sq`. -/
def calculateStdDev (sq : ℚ → ℚ) (data : List ℚ) (period : ℕ) : Option ℚ :=
  if data.length < period ∨ period = 0 then none
  else
    let relevant := data.take period
    if relevant.length < 2 then none
    else
      let mean : ℚ := (relevant.foldl (· + ·) 0) / relevant.length
      let variance : ℚ := (relevant.foldl (fun acc v => acc + (v - mean) ^ 2) 0) / relevant.length
      some (sq variance)

/-- `calculateEntropyForSignal` (predictionLogic.js:606-617): Shannon entropy
of the BIG/SMALL distribution over the first `windowSize` outcomes; `null`
(`none`) when the list is shorter than the window, the conventional `1` when
the window holds no valid class at all.  `Math.log2` is the parameter `lg`
(in exact rational arithmetic the final `isNaN` guard of the source is
unreachable, so it is not modelled). -/
def calculateEntropyForSignal (lg : ℚ → ℚ) (outcomes : List (Option BS)) (windowSize : ℕ) :
    Option ℚ :=
  if outcomes.length < windowSize then none
  else
    let window := outcomes.take windowSize
    let bigCount : ℕ := (window.filter (· = some BS.big)).length
    let smallCount : ℕ := (window.filter (· = some BS.small)).length
    let total : ℕ := bigCount + smallCount
    if total = 0 then some 1
    else
      let term (c : ℕ) : ℚ := if 0 < c then ((c : ℚ) / total) * lg ((c : ℚ) / total) else 0
      some (-(term bigCount + term smallCount))

/-- The per-cycle market context (`TrendContext` in the spec): the record
returned by `getTrendContext` / `getMarketRegimeAndTrendContext`.  The
`details` diagnostic string is modelled as the list of its appended
components (the source's `toFixed` numeric formatting is presentation
only and is elided; determinism is unaffected). -/
structure TrendContext where
  strength : String
  direction : String
  volatility : String
  details : List String
  macroRegime : String
  isTransitioning : Bool
deriving DecidableEq, Repr

/-- `getTrendContext` (predictionLogic.js:240-294): EMA stack direction and
strength (spread normalised by the long-window standard deviation), and a
volatility bucket from a ≤30-sample standard deviation.  `Math.sqrt` is the
parameter `sq`. -/
def getTrendContext (sq : ℚ → ℚ) (history : List HistoryRecord)
    (shortMALookback : ℕ := 5) (mediumMALookback : ℕ := 10) (longMALookback : ℕ := 20) :
    TrendContext :=
  if history.length < longMALookback then
    { strength := "UNKNOWN", direction := "NONE", volatility := "UNKNOWN",
      details := ["Insufficient history"], macroRegime := "UNKNOWN_REGIME",
      isTransitioning := false }
  else
    let numbers : List ℚ := (history.filterMap numFromRecord).map (fun n => (n : ℚ))
    if numbers.length < longMALookback then
      { strength := "UNKNOWN", direction := "NONE", volatility := "UNKNOWN",
        details := ["Insufficient numbers"], macroRegime := "UNKNOWN_REGIME",
        isTransitioning := false }
    else
      match calculateEMA numbers shortMALookback, calculateEMA numbers mediumMALookback,
            calculateEMA numbers longMALookback with
      | some shortMA, some mediumMA, some longMA =>
        let details0 := ["MAs:" ++ toString shortMA ++ "," ++ toString mediumMA ++ ","
                          ++ toString longMA]
        let stdDevLong := calculateStdDev sq numbers longMALookback
        let epsilon : ℚ := 1 / 1000
        let normalizedSpread : ℚ :=
          match stdDevLong with
          | some sd => if sd > epsilon then (shortMA - longMA) / sd else (shortMA - longMA) / epsilon
          | none => (shortMA - longMA) / epsilon
        let details1 := details0 ++ ["NormSpread:" ++ toString normalizedSpread]
        let (direction, strength) :=
          if shortMA > mediumMA ∧ mediumMA > longMA then
            ("BIG", if normalizedSpread > 4/5 then "STRONG"
                    else if normalizedSpread > 9/20 then "MODERATE" else "WEAK")
          else if shortMA < mediumMA ∧ mediumMA < longMA then
            ("SMALL", if normalizedSpread < -(4/5) then "STRONG"
                      else if normalizedSpread < -(9/20) then "MODERATE" else "WEAK")
          else
            (if shortMA > longMA then "BIG_BIASED_RANGE"
             else if longMA > shortMA then "SMALL_BIASED_RANGE" else "NONE", "RANGING")
        let volSlice := numbers.take (min numbers.length 30)
        let (volatility, details2) :=
          if volSlice.length ≥ 15 then
            match calculateStdDev sq volSlice volSlice.length with
            | some sd =>
              (if sd > 33/10 then "HIGH" else if sd > 2 then "MEDIUM"
               else if sd > 9/10 then "LOW" else "VERY_LOW",
               details1 ++ ["VolStdDev:" ++ toString sd])
            | none => ("UNKNOWN", details1)
          else ("UNKNOWN", details1)
        { strength := strength, direction := direction, volatility := volatility,
          details := details2, macroRegime := "PENDING_REGIME_CLASSIFICATION",
          isTransitioning := false }
      | _, _, _ =>
        { strength := "UNKNOWN", direction := "NONE", volatility := "UNKNOWN",
          details := ["MA calculation failed"], macroRegime := "UNKNOWN_REGIME",
          isTransitioning := false }

/-- `getMarketRegimeAndTrendContext` (predictionLogic.js:190-238): layers the
macro-regime label (strength × volatility, plus a `_TRANSITION` suffix when
the short/medium EMA crossover just flipped) on the base context. -/
def getMarketRegimeAndTrendContext (sq : ℚ → ℚ) (history : List HistoryRecord)
    (shortMALookback : ℕ := 5) (mediumMALookback : ℕ := 10) (longMALookback : ℕ := 20) :
    TrendContext :=
  let baseContext := getTrendContext sq history shortMALookback mediumMALookback longMALookback
  let numbers : List ℚ := (history.filterMap numFromRecord).map (fun n => (n : ℚ))
  let isTransitioning :=
    if numbers.length > mediumMALookback + 5 then
      match calculateEMA (numbers.drop 1) shortMALookback,
            calculateEMA (numbers.drop 1) mediumMALookback,
            calculateEMA numbers shortMALookback, calculateEMA numbers mediumMALookback with
      | some prevS, some prevM, some curS, some curM =>
        -- JS truthiness: an EMA numerically equal to 0 is falsy and skips the check.
        if prevS = 0 ∨ prevM = 0 ∨ curS = 0 ∨ curM = 0 then false
        else decide ((prevS ≤ prevM ∧ curS > curM) ∨ (prevS ≥ prevM ∧ curS < curM))
      | _, _, _, _ => false
    else false
  let strength := baseContext.strength
  let volatility := baseContext.volatility
  let macroRegime :=
    if strength = "STRONG" then
      if volatility = "LOW" ∨ volatility = "VERY_LOW" then "TREND_STRONG_LOW_VOL"
      else if volatility = "MEDIUM" then "TREND_STRONG_MED_VOL" else "TREND_STRONG_HIGH_VOL"
    else if strength = "MODERATE" then
      if volatility = "LOW" ∨ volatility = "VERY_LOW" then "TREND_MOD_LOW_VOL"
      else if volatility = "MEDIUM" then "TREND_MOD_MED_VOL" else "TREND_MOD_HIGH_VOL"
    else if strength = "RANGING" then
      if volatility = "LOW" ∨ volatility = "VERY_LOW" then "RANGE_LOW_VOL"
      else if volatility = "MEDIUM" then "RANGE_MED_VOL" else "RANGE_HIGH_VOL"
    else
      if volatility = "HIGH" then "WEAK_HIGH_VOL"
      else if volatility = "MEDIUM" then "WEAK_MED_VOL" else "WEAK_LOW_VOL"
  let macroRegime := if isTransitioning then macroRegime ++ "_TRANSITION" else macroRegime
  { baseContext with
    macroRegime := macroRegime,
    isTransitioning := isTransitioning,
    details := baseContext.details ++ ["Regime:" ++ macroRegime] }

/-- `driftDetector` state (predictionLogic.js:1308): `p_min`/`s_min` start at
`Infinity` (modelled as `⊤` in `WithTop ℚ`); `warning_level = 2` and
`drift_level = 3` are constants and are inlined in `detectConceptDrift`. -/
structure DriftState where
  p_min : WithTop ℚ
  s_min : WithTop ℚ
  n : ℕ
  p_i : ℚ
deriving DecidableEq

/-- The initial drift-detector state `{p_min: ∞, s_min: ∞, n: 0}`; `p_i`
starts absent (`undefined`), which first-call arithmetic never reads because
`n > 1` is false then — modelled as `0`. -/
def initialDriftState : DriftState := { p_min := ⊤, s_min := ⊤, n := 0, p_i := 0 }

/-- The updated running error mean of one `detectConceptDrift` call:
`p_i ← p_prev + (errorRate − p_prev)/n` with `p_prev = 0` on the very first
sample (`n = 1` after increment). -/
def driftUpdatedMean (st : DriftState) (isCorrect : Bool) : ℚ :=
  let n : ℕ := st.n + 1
  let errorRate : ℚ := if isCorrect then 0 else 1
  let pPrev : ℚ := if 1 < n then st.p_i else 0
  pPrev + (errorRate - pPrev) / n

/-- `detectConceptDrift` (predictionLogic.js:1461-1484), the DDM state
machine: updates `(n, p_i, s_i)`, refreshes the stored minima when
`p_i + s_i` improves on them, then reports `DRIFT` (and hard-resets
`(p_min, s_min, n)` to `(∞, ∞, 1)`), `WARNING`, or `STABLE`.  `Math.sqrt`
is the parameter `sq`. -/
def detectConceptDrift (sq : ℚ → ℚ) (st : DriftState) (isCorrect : Bool) :
    DriftState × String :=
  let n : ℕ := st.n + 1
  let p_i : ℚ := driftUpdatedMean st isCorrect
  let s_i : ℚ := sq (p_i * (1 - p_i) / n)
  let p_min : WithTop ℚ :=
    if ((p_i + s_i : ℚ) : WithTop ℚ) < st.p_min + st.s_min then ((p_i : ℚ) : WithTop ℚ)
    else st.p_min
  let s_min : WithTop ℚ :=
    if ((p_i + s_i : ℚ) : WithTop ℚ) < st.p_min + st.s_min then ((s_i : ℚ) : WithTop ℚ)
    else st.s_min
  if ((p_i + s_i : ℚ) : WithTop ℚ) > p_min + ((3 : ℚ) : WithTop ℚ) * s_min then
    ({ p_min := ⊤, s_min := ⊤, n := 1, p_i := p_i }, "DRIFT")
  else if ((p_i + s_i : ℚ) : WithTop ℚ) > p_min + ((2 : ℚ) : WithTop ℚ) * s_min then
    ({ p_min := p_min, s_min := s_min, n := n, p_i := p_i }, "WARNING")
  else
    ({ p_min := p_min, s_min := s_min, n := n, p_i := p_i }, "STABLE")

/-- Per-volatility-bucket counters of one signal source. -/
structure VolPerf where
  correct : ℕ
  total : ℕ
deriving DecidableEq, Repr

/-- One `signalPerformance[source]` record (predictionLogic.js:1313-1319 /
1381-1387).  `recentAccuracy` is the bounded FIFO of correctness bits
(JS pushes the numbers 1/0; modelled as `Bool`).  Periods are integers
(`Date.now()` timestamps at the call sites); `none` models `null`. -/
structure PerfRecord where
  correct : ℕ
  total : ℕ
  recentAccuracy : List Bool
  sessionCorrect : ℕ
  sessionTotal : ℕ
  lastUpdatePeriod : Option ℤ
  lastActivePeriod : Option ℤ
  currentAdjustmentFactor : ℚ
  alphaFactor : ℚ
  longTermImportanceScore : ℚ
  performanceByVolatility : List (String × VolPerf)
  isOnProbation : Bool
deriving DecidableEq, Repr

/-- The freshly-created record for a new source. -/
def defaultPerf : PerfRecord :=
  { correct := 0, total := 0, recentAccuracy := [], sessionCorrect := 0, sessionTotal := 0,
    lastUpdatePeriod := none, lastActivePeriod := none, currentAdjustmentFactor := 1,
    alphaFactor := 1, longTermImportanceScore := 1/2, performanceByVolatility := [],
    isOnProbation := false }

/-- The module-level `signalPerformance` table, keyed by source name. -/
def SigPerfState : Type := List (String × PerfRecord)

instance : DecidableEq SigPerfState := by
  unfold SigPerfState
  infer_instance

/-- Key lookup in an association-list table (first match wins, as in a JS
object). -/
def lookupEntry : List (String × PerfRecord) → String → Option PerfRecord
  | [], _ => none
  | (k', v') :: rest, k => if k' = k then some v' else lookupEntry rest k

/-- Write a key in an association-list table: replaces the first occurrence,
appends if absent (JS object property assignment). -/
def setEntry : List (String × PerfRecord) → String → PerfRecord → List (String × PerfRecord)
  | [], k, v => [(k, v)]
  | (k', v') :: rest, k, v => if k' = k then (k, v) :: rest else (k', v') :: setEntry rest k v

/-- Bucket lookup inside `performanceByVolatility`. -/
def lookupVol : List (String × VolPerf) → String → Option VolPerf
  | [], _ => none
  | (k', v') :: rest, k => if k' = k then some v' else lookupVol rest k

/-- Bucket write inside `performanceByVolatility`. -/
def setVol : List (String × VolPerf) → String → VolPerf → List (String × VolPerf)
  | [], k, v => [(k, v)]
  | (k', v') :: rest, k, v => if k' = k then (k, v) :: rest else (k', v') :: setVol rest k v

/-- `if (!performanceByVolatility[regime]) performanceByVolatility[regime] =
{correct: 0, total: 0}` (predictionLogic.js:1390-1392). -/
def ensureBucket (p : PerfRecord) (vol : String) : PerfRecord :=
  match lookupVol p.performanceByVolatility vol with
  | some _ => p
  | none => { p with performanceByVolatility := p.performanceByVolatility ++ [(vol, ⟨0, 0⟩)] }

/-- Constants of the performance learner (predictionLogic.js:1294-1307). -/
def PERFORMANCE_WINDOW : ℕ := 30

def MIN_OBSERVATIONS_FOR_ADJUST : ℕ := 10

def MAX_WEIGHT_FACTOR : ℚ := 195/100

def MIN_WEIGHT_FACTOR : ℚ := 5/100

def MAX_ALPHA_FACTOR : ℚ := 16/10

def MIN_ALPHA_FACTOR : ℚ := 4/10

def MIN_ABSOLUTE_WEIGHT : ℚ := 3/10000

def INACTIVITY_PERIOD_FOR_DECAY : ℤ := 90

def DECAY_RATE : ℚ := 25/1000

def ALPHA_UPDATE_RATE : ℚ := 4/100

def PROBATION_THRESHOLD_ACCURACY : ℚ := 40/100

def PROBATION_MIN_OBSERVATIONS : ℕ := 15

def PROBATION_WEIGHT_CAP : ℚ := 10/100

/-- One signal in the `contributingSignals` list passed to
`updateSignalPerformance` (only the fields it reads). -/
structure ContribSignal where
  source : String
  prediction : Option BS
deriving DecidableEq, Repr

/-- The recent-accuracy ratio of a window (count of correct over length). -/
def windowAccuracy (w : List Bool) : ℚ :=
  ((w.filter (· = true)).length : ℚ) / (w.length : ℚ)

/-- The counter part of one guarded per-source update of
`updateSignalPerformance` (predictionLogic.js:1394-1422): total/correct,
session and volatility-bucket counters, the importance delta, and the
bounded recent-accuracy push (window ≤ 30).  `isOverallCorrect` is the
source's line 1375: `getBigSmallFromNumber(actualOutcome)` applied to the
class *label* (`"BIG"`/`"SMALL"`) parses as `NaN` and yields `null`, which
is never `===` the string `"BIG"`/`"SMALL"`, so the flag is always `false`
at every call site. -/
def perfCounters (p : PerfRecord) (sig : ContribSignal) (actual : BS) (periodFull : ℤ)
    (vol : String) (lastFinalConfidence : ℚ) (concentrationModeActive : Bool)
    (marketEntropyChaos : Bool) : PerfRecord :=
  let isHighConfidencePrediction : Bool := decide (lastFinalConfidence > 75/100)
  let isOverallCorrect : Bool := false
  let bucket := (lookupVol p.performanceByVolatility vol).getD ⟨0, 0⟩
  let outcomeCorrect : Bool := sig.prediction = some actual
  let bucket' : VolPerf :=
    ⟨bucket.correct + (if outcomeCorrect then 1 else 0), bucket.total + 1⟩
  let importanceDelta : ℚ :=
    if outcomeCorrect then (if isHighConfidencePrediction then 25/1000 else 1/100)
    else (if isHighConfidencePrediction ∧ ¬isOverallCorrect then -(40/1000) else -(15/1000))
  let importanceDelta :=
    if concentrationModeActive ∨ marketEntropyChaos then importanceDelta * (3/2)
    else importanceDelta
  let importance := min 1 (max 0 (p.longTermImportanceScore + importanceDelta))
  let recent0 := p.recentAccuracy ++ [outcomeCorrect]
  let recent := if PERFORMANCE_WINDOW < recent0.length then recent0.drop 1 else recent0
  { p with
    total := p.total + 1,
    sessionTotal := p.sessionTotal + 1,
    correct := p.correct + (if outcomeCorrect then 1 else 0),
    sessionCorrect := p.sessionCorrect + (if outcomeCorrect then 1 else 0),
    performanceByVolatility := setVol p.performanceByVolatility vol bucket',
    longTermImportanceScore := importance,
    recentAccuracy := recent,
    lastActivePeriod := some periodFull }

/-- One guarded per-source update (predictionLogic.js:1394-1449), applied
when `lastActivePeriod !== periodFull || total === 0`: the counter update
(`perfCounters`), then — once `total ≥ 10` and the post-push window holds
≥ `PERFORMANCE_WINDOW / 2 = 15` samples — the adjustment-factor, probation,
and asymmetric alpha-factor updates computed from the post-push window
accuracy.  (`p1.total`, `p1.recentAccuracy`, `p1.alphaFactor`, and
`p1.isOnProbation` are the source's `total`/new window/unchanged
`alphaFactor`/`isOnProbation` at those lines.) -/
def updateOnePerf (p : PerfRecord) (sig : ContribSignal) (actual : BS) (periodFull : ℤ)
    (vol : String) (lastFinalConfidence : ℚ) (concentrationModeActive : Bool)
    (marketEntropyChaos : Bool) : PerfRecord :=
  let p1 := perfCounters p sig actual periodFull vol lastFinalConfidence
    concentrationModeActive marketEntropyChaos
  if MIN_OBSERVATIONS_FOR_ADJUST ≤ p1.total ∧
      PERFORMANCE_WINDOW / 2 ≤ p1.recentAccuracy.length then
    let accuracy := windowAccuracy p1.recentAccuracy
    let newAdjustmentFactor :=
      min (max (1 + (accuracy - 1/2) * (35/10)) MIN_WEIGHT_FACTOR) MAX_WEIGHT_FACTOR
    let probation :=
      if PROBATION_MIN_OBSERVATIONS ≤ p1.recentAccuracy.length ∧
          accuracy < PROBATION_THRESHOLD_ACCURACY
      then true
      else if accuracy > PROBATION_THRESHOLD_ACCURACY + 15/100 then false
      else p1.isOnProbation
    let alphaLearningRate :=
      ALPHA_UPDATE_RATE *
        (if accuracy < 35/100 then 175/100 else if accuracy < 45/100 then 14/10 else 1)
    let alpha :=
      if newAdjustmentFactor > p1.alphaFactor then
        min MAX_ALPHA_FACTOR
          (p1.alphaFactor + alphaLearningRate * (newAdjustmentFactor - p1.alphaFactor))
      else
        max MIN_ALPHA_FACTOR
          (p1.alphaFactor - alphaLearningRate * (p1.alphaFactor - newAdjustmentFactor))
    { p1 with
      currentAdjustmentFactor := newAdjustmentFactor,
      isOnProbation := probation,
      alphaFactor := alpha }
  else p1

/-- One `forEach` iteration of `updateSignalPerformance`
(predictionLogic.js:1377-1452): skip nameless signals (the empty string is
falsy), lazily create the record and the volatility bucket, run the guarded
update once per period id, and stamp `lastUpdatePeriod`. -/
def updateSignalStep (actual : BS) (periodFull : ℤ) (vol : String)
    (lastFinalConfidence : ℚ) (concentrationModeActive : Bool) (marketEntropyChaos : Bool)
    (st : SigPerfState) (sig : ContribSignal) : SigPerfState :=
  if sig.source = "" then st
  else
    let p0 := (lookupEntry st sig.source).getD defaultPerf
    let p1 := ensureBucket p0 vol
    let p2 :=
      if p1.lastActivePeriod ≠ some periodFull ∨ p1.total = 0 then
        updateOnePerf p1 sig actual periodFull vol lastFinalConfidence
          concentrationModeActive marketEntropyChaos
      else p1
    setEntry st sig.source { p2 with lastUpdatePeriod := some periodFull }

/-- `updateSignalPerformance` (predictionLogic.js:1372-1453).  The
`marketEntropyState.includes("CHAOS")` test is precomputed into the Boolean
`marketEntropyChaos`. -/
def updateSignalPerformance (contributingSignals : List ContribSignal)
    (actualOutcome : Option BS) (periodFull : ℤ) (currentVolatilityRegime : String)
    (lastFinalConfidence : ℚ) (concentrationModeActive : Bool) (marketEntropyChaos : Bool)
    (st : SigPerfState) : SigPerfState :=
  match actualOutcome with
  | none => st
  | some actual =>
    if contributingSignals = [] then st
    else
      contributingSignals.foldl
        (updateSignalStep actual periodFull currentVolatilityRegime lastFinalConfidence
          concentrationModeActive marketEntropyChaos) st

/-- The in-call record refresh of `getDynamicWeightAdjustment`
(predictionLogic.js:1323-1337): session counters reset when the supplied
history has length ≤ 1; once per period, an inactivity gap longer than
`INACTIVITY_PERIOD_FOR_DECAY` decays `currentAdjustmentFactor` one step
toward 1 and lifts probation. -/
def dynPerfRefresh (perf : PerfRecord) (currentPeriodFull : ℤ) (sessionHistoryLen : ℕ) :
    PerfRecord :=
  let perf :=
    if sessionHistoryLen ≤ 1 then { perf with sessionCorrect := 0, sessionTotal := 0 }
    else perf
  if perf.lastUpdatePeriod ≠ some currentPeriodFull then
    let perf :=
      match perf.lastActivePeriod with
      | some lap =>
        if currentPeriodFull - lap > INACTIVITY_PERIOD_FOR_DECAY then
          let f := perf.currentAdjustmentFactor
          { perf with
            currentAdjustmentFactor :=
              if f > 1 then max 1 (f - DECAY_RATE)
              else if f < 1 then min 1 (f + DECAY_RATE) else f,
            isOnProbation := false }
        else perf
      | none => perf
    { perf with lastUpdatePeriod := some currentPeriodFull }
  else perf

/-- The effective weight multiplier of `getDynamicWeightAdjustment`
(predictionLogic.js:1339-1362): the product of the five adjustment factors,
capped at `PROBATION_WEIGHT_CAP` while on probation. -/
def dynFactor (perf : PerfRecord) (currentVolatilityRegime : String) : ℚ :=
  let volatilitySpecificAdjustment : ℚ :=
    match lookupVol perf.performanceByVolatility currentVolatilityRegime with
    | some volPerf =>
      if 5 ≤ volPerf.total then
        let volAccuracy := (volPerf.correct : ℚ) / (volPerf.total : ℚ)
        min (max (1 + (volAccuracy - 1/2) * (13/10)) (55/100)) (145/100)
      else 1
    | none => 1
  let sessionAdjustmentFactor : ℚ :=
    if 3 ≤ perf.sessionTotal then
      let sessionAccuracy := (perf.sessionCorrect : ℚ) / (perf.sessionTotal : ℚ)
      min (max (1 + (sessionAccuracy - 1/2) * (15/10)) (6/10)) (14/10)
    else 1
  let finalAdjustmentFactor :=
    perf.currentAdjustmentFactor * perf.alphaFactor * volatilitySpecificAdjustment *
      sessionAdjustmentFactor * (70/100 + perf.longTermImportanceScore * (6/10))
  if perf.isOnProbation then min finalAdjustmentFactor PROBATION_WEIGHT_CAP
  else finalAdjustmentFactor

/-- `getDynamicWeightAdjustment` (predictionLogic.js:1310-1366): returns the
effective weight for a source this cycle and the (possibly mutated) table —
the call creates missing records, refreshes the record (`dynPerfRefresh`),
multiplies the five adjustment factors and applies the probation cap
(`dynFactor`), and floors the result at `MIN_ABSOLUTE_WEIGHT`. -/
def getDynamicWeightAdjustment (signalSourceName : String) (baseWeight : ℚ)
    (currentPeriodFull : ℤ) (currentVolatilityRegime : String) (sessionHistoryLen : ℕ)
    (st : SigPerfState) : ℚ × SigPerfState :=
  match lookupEntry st signalSourceName with
  | none =>
    (max baseWeight MIN_ABSOLUTE_WEIGHT, setEntry st signalSourceName defaultPerf)
  | some perf =>
    let perf := dynPerfRefresh perf currentPeriodFull sessionHistoryLen
    (max (baseWeight * dynFactor perf currentVolatilityRegime) MIN_ABSOLUTE_WEIGHT,
      setEntry st signalSourceName perf)

/-- Prefix test on character lists. -/
def listIsPrefix : List Char → List Char → Bool
  | [], _ => true
  | _ :: _, [] => false
  | a :: as, b :: bs => a = b && listIsPrefix as bs

/-- Infix test on character lists. -/
def listIsInfix (sub : List Char) : List Char → Bool
  | [] => sub.isEmpty
  | b :: bs => listIsPrefix sub (b :: bs) || listIsInfix sub bs

/-- JS `a.includes(b)` on strings: substring test. -/
def strIncludes (s sub : String) : Bool :=
  listIsInfix sub.data s.data

/-- The module-level reflexive-correction counters
(predictionLogic.js:1811-1812). -/
structure ReflexState where
  consecutiveHighConfLosses : ℕ
  reflexiveCorrectionActive : ℕ
deriving DecidableEq, Repr

/-- The fields of `currentSharedStats` that `checkForAnomalousPerformance`
reads.  `lastFinalConfidence = none` models a missing/non-number value
(the `typeof === 'number'` test), `lastActualOutcome = none` models a
falsy one. -/
structure StatsView where
  lastFinalConfidence : Option ℚ
  lastActualOutcome : Option ℤ
  lastPredictedOutcome : Option BS
  lastConfidenceLevel : ℕ
deriving DecidableEq, Repr

/-- Whether `stats` records a confidence-level-3 miss: the previous
prediction had `lastConfidenceLevel === 3` and the realised class differs
from the predicted one (`===` on two `null`s counts as a hit, as in JS). -/
def isHighConfMiss (s : StatsView) : Bool :=
  s.lastConfidenceLevel = 3 ∧ getBigSmallFromNumber s.lastActualOutcome ≠ s.lastPredictedOutcome

/-- `checkForAnomalousPerformance` (predictionLogic.js:1814-1840): while the
countdown is active it just decrements and reports `true`; otherwise it
updates the consecutive-miss counter from the previous cycle's outcome, and
two accumulated misses arm the 5-cycle countdown, zero the counter, and
report `true`. -/
def checkForAnomalousPerformance (stats : Option StatsView) (st : ReflexState) :
    Bool × ReflexState :=
  if 0 < st.reflexiveCorrectionActive then
    (true, { st with reflexiveCorrectionActive := st.reflexiveCorrectionActive - 1 })
  else
    let st1 :=
      match stats with
      | some s =>
        match s.lastFinalConfidence, s.lastActualOutcome with
        | some _, some _ =>
          if isHighConfMiss s then
            { st with consecutiveHighConfLosses := st.consecutiveHighConfLosses + 1 }
          else { st with consecutiveHighConfLosses := 0 }
        | _, _ => st
      | none => st
    if 2 ≤ st1.consecutiveHighConfLosses then
      (true, { consecutiveHighConfLosses := 0, reflexiveCorrectionActive := 5 })
    else (false, st1)

/-- The cycle's contextual aggression (predictionLogic.js:2009-2012):
`profile.contextualAggression × primeTimeAggression`, cut to 25% under
reflexive correction or declared drift, else to 60% under concentration
mode. -/
def regimeAggression (profileAggression primeTimeAggression : ℚ) (isReflexive : Bool)
    (driftState : String) (concentrationModeEngaged : Bool) : ℚ :=
  let a := profileAggression * primeTimeAggression
  if isReflexive ∨ driftState = "DRIFT" then a * (25/100)
  else if concentrationModeEngaged then a * (6/10) else a

/-- `getPrimeTimeSession` (predictionLogic.js:170-186): session name,
aggression multiplier, confidence multiplier — `none` outside prime-time
hours. -/
def getPrimeTimeSession (istHour : ℕ) : Option (String × ℚ × ℚ) :=
  if 10 ≤ istHour ∧ istHour < 12 then some ("PRIME_MORNING", 125/100, 115/100)
  else if 13 ≤ istHour ∧ istHour < 14 then some ("PRIME_AFTERNOON_1", 115/100, 110/100)
  else if 15 ≤ istHour ∧ istHour < 16 then some ("PRIME_AFTERNOON_2", 115/100, 110/100)
  else if 17 ≤ istHour ∧ istHour < 20 then
    if istHour = 19 then some ("PRIME_EVENING_PEAK", 135/100, 125/100)
    else some ("PRIME_EVENING", 130/100, 120/100)
  else none

/-- The weather component of `getRealTimeExternalData`
(predictionLogic.js:139-144); the index selects from
`["Clear", "Clouds", "Haze", "Smoke", "Rain", "Drizzle"]`. -/
def weatherFactor : Fin 6 → ℚ
  | 0 => 101/100
  | 1 => 101/100
  | 2 => 1
  | 3 => 1
  | 4 => 99/100
  | 5 => 99/100

/-- The news-sentiment component of `getRealTimeExternalData`
(predictionLogic.js:146-153); the index selects from `["Strongly Positive",
"Positive", "Neutral", "Negative", "Strongly Negative"]`. -/
def newsFactor : Fin 5 → ℚ
  | 0 => 105/100
  | 1 => 102/100
  | 2 => 1
  | 3 => 98/100
  | 4 => 95/100

/-- The market-volatility component of `getRealTimeExternalData`
(predictionLogic.js:155-160); the index selects from
`["Low", "Normal", "Elevated", "High"]`. -/
def mktVolFactor : Fin 4 → ℚ
  | 0 => 1
  | 1 => 1
  | 2 => 97/100
  | 3 => 94/100

/-- The nondeterministic inputs of one `ultraAIPredict` cycle: the wall-clock
IST hour and the `Math.random()` draws (the three external-data picks, the
forced-decision coin flip, and the forced-confidence jitter `∈ [0,1)`). -/
structure Env where
  istHour : ℕ
  weatherIdx : Fin 6
  newsIdx : Fin 5
  mktVolIdx : Fin 4
  randDecisionBig : Bool
  jitter : ℚ
deriving DecidableEq

/-- `getRealTimeExternalData` combined factor (predictionLogic.js:163). -/
def extFactor (env : Env) : ℚ :=
  weatherFactor env.weatherIdx * newsFactor env.newsIdx * mktVolFactor env.mktVolIdx

/-- The advanced-regime probability quadruple
(`analyzeAdvancedMarketRegime`, predictionLogic.js:1264-1289). -/
structure AdvProbs where
  bullTrend : ℚ
  bearTrend : ℚ
  volatileRange : ℚ
  quietRange : ℚ
deriving DecidableEq, Repr

/-- `analyzeAdvancedMarketRegime` (predictionLogic.js:1264-1289): a fixed
heuristic catalog keyed on strength, volatility, entropy state, and trend
direction. -/
def analyzeAdvancedMarketRegime (trendCtx : TrendContext) (entropyState : String) : AdvProbs :=
  if trendCtx.strength = "STRONG" ∧ trendCtx.volatility ≠ "HIGH" ∧ entropyState = "ORDERLY" then
    if strIncludes trendCtx.direction "BIG" then
      { bullTrend := 8/10, bearTrend := 5/100, volatileRange := 1/10, quietRange := 5/100 }
    else
      { bullTrend := 5/100, bearTrend := 8/10, volatileRange := 1/10, quietRange := 5/100 }
  else if trendCtx.strength = "RANGING" ∧ trendCtx.volatility = "HIGH" ∧
      strIncludes entropyState "CHAOS" then
    { bullTrend := 1/10, bearTrend := 1/10, volatileRange := 7/10, quietRange := 1/10 }
  else if trendCtx.strength = "RANGING" ∧ trendCtx.volatility = "VERY_LOW" then
    { bullTrend := 1/10, bearTrend := 1/10, volatileRange := 1/10, quietRange := 7/10 }
  else
    { bullTrend := 25/100, bearTrend := 25/100, volatileRange := 25/100, quietRange := 25/100 }

/-- A raw analyzer result at one of the `addSignal` call sites
(predictionLogic.js:2045-2064): the `signalType` tag of the call site plus
the returned `{source, prediction, weight}`.  The analyzer bodies themselves
are abstracted: the verified claims quantify over their outputs. -/
structure RawSignal where
  stype : String
  source : String
  prediction : BS
  weight : ℚ
deriving DecidableEq, Repr

/-- A signal after dynamic weight adjustment (the `result.adjustedWeight`
assignment, predictionLogic.js:2039). -/
structure AdjSignal where
  source : String
  prediction : BS
  weight : ℚ
  adjustedWeight : ℚ
deriving DecidableEq, Repr

/-- The category classifier of `analyzePredictionConsensus`
(predictionLogic.js:1673-1682). -/
def getCategory (source : String) : Option String :=
  if strIncludes source "MACD" ∨ strIncludes source "Ichimoku" ∨
     strIncludes source "StateSpace" ∨ strIncludes source "Fusion" then some "trend"
  else if strIncludes source "Stochastic" ∨ strIncludes source "RSI" then some "momentum"
  else if strIncludes source "Bollinger" ∨ strIncludes source "MADev" ∨
     strIncludes source "ZScore" then some "meanRev"
  else if strIncludes source "Gram" ∨ strIncludes source "Cycle" ∨
     strIncludes source "Alt" ∨ strIncludes source "Harmonic" ∨
     strIncludes source "Pattern" then some "pattern"
  else if strIncludes source "Vol" ∨ strIncludes source "Fractal" ∨
     strIncludes source "QuantumTunnel" then some "volatility"
  else if strIncludes source "Bayesian" ∨ strIncludes source "MonteCarlo" ∨
     strIncludes source "Superposition" then some "probabilistic"
  else if strIncludes source "ML-" then some "ml"
  else none

/-- The adjusted weight a category accumulates for one class
(`categories[category][s.prediction] += s.adjustedWeight`). -/
def catWeight (signals : List AdjSignal) (cat : String) (pred : BS) : ℚ :=
  (signals.filter (fun s => getCategory s.source = some cat ∧ s.prediction = pred)).foldl
    (fun a s => a + s.adjustedWeight) 0

/-- The seven coarse vote categories, in declaration order. -/
def consensusCategories : List String :=
  ["trend", "momentum", "meanRev", "pattern", "volatility", "probabilistic", "ml"]

/-- Result of `analyzePredictionConsensus`. -/
structure Consensus where
  score : ℚ
  factor : ℚ
deriving DecidableEq, Repr

/-- `analyzePredictionConsensus` (predictionLogic.js:1658-1728): category
dominance score converted to a multiplicative factor clamped to
`[0.4, 1.6]`, discounted ×0.6 on a trend/momentum conflict during a STRONG
trend. -/
def analyzePredictionConsensus (signals : List AdjSignal) (trendStrength : String) :
    Consensus :=
  if signals.length < 4 then { score := 1/2, factor := 1 }
  else
    let counts :=
      consensusCategories.foldl
        (fun (acc : ℕ × ℕ × ℕ) cat =>
          let b := catWeight signals cat BS.big
          let s := catWeight signals cat BS.small
          if b + s > 0 then
            if b > s * (12/10) then (acc.1 + 1, acc.2.1, acc.2.2)
            else if s > b * (12/10) then (acc.1, acc.2.1 + 1, acc.2.2)
            else (acc.1, acc.2.1, acc.2.2 + 1)
          else acc)
        (0, 0, 0)
    let bigCats := counts.1
    let smallCats := counts.2.1
    let mixedCats := counts.2.2
    let totalCats := bigCats + smallCats + mixedCats
    let consensusScore : ℚ :=
      if 0 < totalCats then ((max bigCats smallCats - min bigCats smallCats : ℕ) : ℚ) / totalCats
      else 1/2
    let factor := 1 + consensusScore * (4/10)
    let factor :=
      if trendStrength = "STRONG" ∧
          ((catWeight signals "trend" BS.big > catWeight signals "trend" BS.small ∧
            catWeight signals "momentum" BS.small > catWeight signals "momentum" BS.big) ∨
           (catWeight signals "trend" BS.small > catWeight signals "trend" BS.big ∧
            catWeight signals "momentum" BS.big > catWeight signals "momentum" BS.small))
      then factor * (6/10) else factor
    { score := consensusScore, factor := max (4/10) (min (16/10) factor) }

/-- `analyzeQuantumSuperpositionState` (predictionLogic.js:1730-1759): the
meta-vote derived from the aggregate class-weight ratio scaled by the
consensus factor. -/
def analyzeQuantumSuperpositionState (signals : List AdjSignal) (consensusFactor : ℚ)
    (baseWeight : ℚ) : Option RawSignal :=
  if signals.length < 5 then none
  else
    let totalWeight := signals.foldl (fun a s => a + s.adjustedWeight) 0
    if totalWeight < 1/10 then none
    else
      let bigWeight :=
        (signals.filter (·.prediction = BS.big)).foldl (fun a s => a + s.adjustedWeight) 0
      let smallWeight :=
        (signals.filter (·.prediction = BS.small)).foldl (fun a s => a + s.adjustedWeight) 0
      let bigCollapseProbability := bigWeight / totalWeight * consensusFactor
      let smallCollapseProbability := smallWeight / totalWeight * (2 - consensusFactor)
      if bigCollapseProbability > smallCollapseProbability * (13/10) then
        some { stype := "meta", source := "QuantumSuperposition", prediction := BS.big,
               weight := baseWeight * min 1 (bigCollapseProbability - smallCollapseProbability) }
      else if smallCollapseProbability > bigCollapseProbability * (13/10) then
        some { stype := "meta", source := "QuantumSuperposition", prediction := BS.small,
               weight := baseWeight * min 1 (smallCollapseProbability - bigCollapseProbability) }
      else none

/-- `analyzeSignalConsistency` (predictionLogic.js:1794-1809), score only
(the `details` string is diagnostic).  Every modelled signal has a
prediction, so the source's two `< 3` guards coincide. -/
def analyzeSignalConsistency (signals : List AdjSignal) : ℚ :=
  if signals.length < 3 then 70/100
  else
    let bigCount := (signals.filter (·.prediction = BS.big)).length
    let smallCount := (signals.filter (·.prediction = BS.small)).length
    if bigCount + smallCount = 0 then 1/2
    else ((max bigCount smallCount : ℕ) : ℚ) / ((bigCount + smallCount : ℕ) : ℚ)

/-- The category classifier of `analyzePathConfluenceStrength`
(predictionLogic.js:1771-1778); unmatched sources fall into `other`. -/
def pathCategory (source : String) : String :=
  if strIncludes source "MACD" ∨ strIncludes source "Ichimoku" then "trend"
  else if strIncludes source "Stochastic" ∨ strIncludes source "RSI" then "momentum"
  else if strIncludes source "Bollinger" ∨ strIncludes source "ZScore" then "meanRev"
  else if strIncludes source "Gram" ∨ strIncludes source "Cycle" ∨
     strIncludes source "Pattern" then "pattern"
  else if strIncludes source "Vol" ∨ strIncludes source "FractalDim" then "volatility"
  else if strIncludes source "Bayesian" ∨ strIncludes source "Superposition" ∨
     strIncludes source "ML-" then "probabilistic"
  else "other"

/-- Result of `analyzePathConfluenceStrength` (score and distinct agreeing
categories). -/
structure PathConfluence where
  score : ℚ
  diversePaths : ℕ
deriving DecidableEq, Repr

/-- `analyzePathConfluenceStrength` (predictionLogic.js:1762-1792). -/
def analyzePathConfluenceStrength (signals : List AdjSignal) (finalPrediction : BS) :
    PathConfluence :=
  if signals = [] then { score := 0, diversePaths := 0 }
  else
    let agreeing := signals.filter
      (fun s => s.prediction = finalPrediction ∧ s.adjustedWeight > MIN_ABSOLUTE_WEIGHT * 10)
    if agreeing.length < 2 then { score := 0, diversePaths := agreeing.length }
    else
      let diversePathCount := ((agreeing.map (fun s => pathCategory s.source)).dedup).length
      let confluenceScore : ℚ :=
        if 4 ≤ diversePathCount then 20/100
        else if diversePathCount = 3 then 12/100
        else if diversePathCount = 2 then 5/100 else 0
      let veryStrongAgreeingCount := (agreeing.filter (·.adjustedWeight > 1/10)).length
      let confluenceScore :=
        confluenceScore + min ((veryStrongAgreeingCount : ℚ) * (2/100)) (10/100)
      { score := min confluenceScore (30/100), diversePaths := diversePathCount }

/-- `calculateUncertaintyScore` (predictionLogic.js:1843-1888), score only
(the `reasons` string is diagnostic). -/
def calculateUncertaintyScore (isTransitioning : Bool) (volatility : String)
    (stabilityIsStable : Bool) (stabilityReason : String) (entropyState : String)
    (consistencyScore : ℚ) (diversePaths : ℕ) (globalAccuracy : ℚ) (isReflexive : Bool)
    (driftState : String) : ℚ :=
  (if isReflexive then 80 else 0)
  + (if driftState = "DRIFT" then 70 else if driftState = "WARNING" then 40 else 0)
  + (if ¬stabilityIsStable then
      (if strIncludes stabilityReason "Dominance" ∨ strIncludes stabilityReason "Choppiness"
       then 50 else 40)
     else 0)
  + (if strIncludes entropyState "CHAOS" then
      (if entropyState = "RISING_CHAOS" then 45 else 35)
     else 0)
  + (if consistencyScore < 6/10 then (1 - consistencyScore) * 50 else 0)
  + (if diversePaths < 3 then ((3 - diversePaths : ℕ) : ℚ) * 15 else 0)
  + (if isTransitioning then 25 else 0)
  + (if volatility = "HIGH" then 20 else 0)
  + (if globalAccuracy < 48/100 then (48/100 - globalAccuracy) * 150 else 0)

/-- The `addSignal` loop (predictionLogic.js:2014-2064) applied to the list
of raw analyzer results: regime gating on the signal type, the
`result && result.weight && result.prediction` truthiness check (a weight
equal to 0 is falsy), aggression scaling, and dynamic weight adjustment
threaded through the performance table. -/
def buildSignals (rawSignals : List RawSignal) (profileTypes : List String)
    (aggression : ℚ) (periodFull : ℤ) (vol : String) (sessionHistoryLen : ℕ)
    (st : SigPerfState) : List AdjSignal × SigPerfState :=
  rawSignals.foldl
    (fun (acc : List AdjSignal × SigPerfState) (r : RawSignal) =>
      if ¬(profileTypes.contains "all" ∨ profileTypes.contains r.stype) then acc
      else if r.weight = (0 : ℚ) then acc
      else
        let (w, st') := getDynamicWeightAdjustment r.source (r.weight * aggression)
          periodFull vol sessionHistoryLen acc.2
        (acc.1 ++ [{ source := r.source, prediction := r.prediction, weight := r.weight,
                     adjustedWeight := w }], st'))
    ([], st)

/-- The signal pipeline of one cycle (predictionLogic.js:2044-2074): the
adjusted signals, the consensus, the superposition meta-vote (adjusted with
no aggression scaling, predictionLogic.js:2070), and the surviving
`validSignals` whose adjusted weight clears `MIN_ABSOLUTE_WEIGHT`. -/
def buildValidSignals (rawSignals : List RawSignal) (profileTypes : List String)
    (aggression : ℚ) (periodFull : ℤ) (vol : String) (sessionHistoryLen : ℕ)
    (trendStrength : String) (st : SigPerfState) :
    List AdjSignal × Consensus × SigPerfState :=
  let bs := buildSignals rawSignals profileTypes aggression periodFull vol sessionHistoryLen st
  let consensus := analyzePredictionConsensus bs.1 trendStrength
  let withSuper : List AdjSignal × SigPerfState :=
    match analyzeQuantumSuperpositionState bs.1 consensus.factor (22/100) with
    | some s =>
      let r := getDynamicWeightAdjustment s.source s.weight periodFull vol
        sessionHistoryLen bs.2
      (bs.1 ++ [({ source := s.source, prediction := s.prediction, weight := s.weight,
                   adjustedWeight := r.1 } : AdjSignal)], r.2)
    | none => bs
  (withSuper.1.filter (·.adjustedWeight > MIN_ABSOLUTE_WEIGHT), consensus, withSuper.2)

/-- The prediction-cycle output (the fields of the object built at
predictionLogic.js:2153-2178 that the verified claims mention;
`bigConfidence`/`smallConfidence` are `predictions.BIG.confidence` /
`predictions.SMALL.confidence`; `trail` models `overallLogic` as the list
of `masterLogic` entries, keeping the exact marker constants and eliding
the numerically-formatted diagnostic entries; carry-state echo fields
duplicate `finalDecision`/`finalConfidence`/`confidenceLevel` and the
inputs, and are elided). -/
structure PredOutput where
  bigConfidence : ℚ
  smallConfidence : ℚ
  finalDecision : BS
  finalConfidence : ℚ
  confidenceLevel : ℕ
  isForcedPrediction : Bool
  trail : List String
  sourceTag : String
  predictionQualityScore : ℚ
deriving DecidableEq, Repr

/-- The forced early-return object (predictionLogic.js:1999-2004 and
2080-2085): a coin-flip decision at confidence 0.5, level 1. -/
def forcedReturn (env : Env) (trail : List String) (tag : String) : PredOutput :=
  { bigConfidence := 1/2, smallConfidence := 1/2,
    finalDecision := if env.randDecisionBig then BS.big else BS.small,
    finalConfidence := 1/2, confidenceLevel := 1, isForcedPrediction := true,
    trail := trail, sourceTag := tag, predictionQualityScore := 1/100 }

/-- Sum of adjusted weights (`score += signal.adjustedWeight`). -/
def sumWeights (l : List AdjSignal) : ℚ :=
  l.foldl (fun a s => a + s.adjustedWeight) 0

/-- The prime-time aggression multiplier in effect (1 outside prime time). -/
def primeAggr (istHour : ℕ) : ℚ :=
  ((getPrimeTimeSession istHour).map (fun s => s.2.1)).getD 1

/-- The prime-time confidence multiplier in effect (1 outside prime time). -/
def primeConf (istHour : ℕ) : ℚ :=
  ((getPrimeTimeSession istHour).map (fun s => s.2.2)).getD 1

/-- `concentrationModeEngaged` (predictionLogic.js:1960 and 1969): set by
instability, reflexive correction, a chaos entropy state, or any non-STABLE
drift report. -/
def concentrationEngaged (stabilityIsStable : Bool) (isReflexive : Bool)
    (entropyState driftState : String) : Bool :=
  ¬stabilityIsStable ∨ isReflexive ∨ strIncludes entropyState "CHAOS" ∨ driftState ≠ "STABLE"

/-- The aggression the `addSignal` loop applies this cycle: the regime
profile's `contextualAggression` boosted by prime time and cut by
reflexive-correction/drift/concentration (predictionLogic.js:2009-2012). -/
def cycleAggression (env : Env) (profileAggression : ℚ) (stabilityIsStable : Bool)
    (isReflexive : Bool) (entropyState driftState : String) : ℚ :=
  regimeAggression profileAggression (primeAggr env.istHour) isReflexive driftState
    (concentrationEngaged stabilityIsStable isReflexive entropyState driftState)

/-- `finalConfidence = max/total` over the two class scores, 0.5 on a zero
total (predictionLogic.js:2103). -/
def rawConfidence (bigScore smallScore : ℚ) : ℚ :=
  if bigScore + smallScore > 0 then max bigScore smallScore / (bigScore + smallScore) else 1/2

/-- The prime-time/external-data confidence boost
(predictionLogic.js:2106). -/
def boostedConfidence (conf primeTimeConfidence extDataFactor : ℚ) : ℚ :=
  1/2 + (conf - 1/2) * primeTimeConfidence * extDataFactor

/-- The uncertainty compression `conf ← 0.5 + (conf − 0.5)·(1 − min(1,
u/120))` (predictionLogic.js:2113-2114). -/
def compressedConfidence (conf uncertaintyScore : ℚ) : ℚ :=
  1/2 + (conf - 1/2) * (1 - min 1 (uncertaintyScore / 120))

/-- The forced-prediction jitter `0.5 + (Math.random() − 0.5)·0.02`
(predictionLogic.js:2146). -/
def forcedJitterConfidence (jitter : ℚ) : ℚ :=
  1/2 + (jitter - 1/2) * (2/100)

/-- The display clamp `Math.max(0.001, Math.min(0.999, c))`
(predictionLogic.js:2155-2156). -/
def clampDisplay (c : ℚ) : ℚ :=
  max (1/1000) (min (999/1000) c)

/-- The prediction-quality score (predictionLogic.js:2117-2120). -/
def pqsScore (consistencyScore pathConfluenceScore uncertaintyScore : ℚ) : ℚ :=
  max (1/100) (min (99/100)
    (1/2 + (consistencyScore - 1/2) * (4/10) + pathConfluenceScore * (12/10)
      - uncertaintyScore / 500))

/-- The confidence-level ladder (predictionLogic.js:2123-2139): thresholds
relax during a prime-time session. -/
def confidenceLevelOf (isPrime : Bool) (conf pqs : ℚ) : ℕ :=
  let highConfThreshold : ℚ := if isPrime then 72/100 else 78/100
  let medConfThreshold : ℚ := if isPrime then 60/100 else 65/100
  let highPqsThreshold : ℚ := if isPrime then 70/100 else 75/100
  let medPqsThreshold : ℚ := if isPrime then 55/100 else 60/100
  let level : ℕ := 1
  let level := if conf > medConfThreshold ∧ pqs > medPqsThreshold then 2 else level
  let level := if conf > highConfThreshold ∧ pqs > highPqsThreshold then 3 else level
  level

/-- The fusion tail of `ultraAIPredict` (predictionLogic.js:2088-2181),
given the surviving `validSignals` and the consensus: class scores tilted by
the advanced-regime probabilities and the consensus factor, decision and raw
confidence, boosts-then-compressions, quality score, confidence level, the
forced-override check, and the clamped display confidences. -/
def mainFusion (env : Env) (trendCtx : TrendContext) (stabilityIsStable : Bool)
    (stabilityReason entropyState : String) (isReflexive : Bool) (driftState : String)
    (longTermGlobalAccuracy : ℚ) (validSignals : List AdjSignal) (consensus : Consensus)
    (trailPrefix : List String) : PredOutput :=
  let adv := analyzeAdvancedMarketRegime trendCtx entropyState
  let bigScore := sumWeights (validSignals.filter (·.prediction = BS.big)) *
    (1 + adv.bullTrend - adv.bearTrend) * consensus.factor
  let smallScore := sumWeights (validSignals.filter (·.prediction = BS.small)) *
    (1 + adv.bearTrend - adv.bullTrend) * (2 - consensus.factor)
  let finalDecision :=
    if bigScore + smallScore > 0 then (if bigScore ≥ smallScore then BS.big else BS.small)
    else (if env.randDecisionBig then BS.big else BS.small)
  let conf1 := boostedConfidence (rawConfidence bigScore smallScore) (primeConf env.istHour)
    (extFactor env)
  let consistencyScore := analyzeSignalConsistency validSignals
  let pathConfluence := analyzePathConfluenceStrength validSignals finalDecision
  let uncertaintyScore := calculateUncertaintyScore trendCtx.isTransitioning
    trendCtx.volatility stabilityIsStable stabilityReason entropyState consistencyScore
    pathConfluence.diversePaths longTermGlobalAccuracy isReflexive driftState
  let conf2 := compressedConfidence conf1 uncertaintyScore
  let pqs := pqsScore consistencyScore pathConfluence.score uncertaintyScore
  let uncertaintyThreshold : ℚ := if isReflexive ∨ driftState = "DRIFT" then 65 else 95
  let isForced := uncertaintyScore ≥ uncertaintyThreshold ∨ pqs < 20/100
  let confidenceLevel :=
    if isForced then 1 else confidenceLevelOf (getPrimeTimeSession env.istHour).isSome conf2 pqs
  let conf3 := if isForced then forcedJitterConfidence env.jitter else conf2
  let trail := trailPrefix ++ (if isForced then ["FORCED_PREDICTION"] else [])
  { bigConfidence := clampDisplay (if finalDecision = BS.big then conf3 else 1 - conf3),
    smallConfidence := clampDisplay (if finalDecision = BS.small then conf3 else 1 - conf3),
    finalDecision := finalDecision, finalConfidence := conf3,
    confidenceLevel := confidenceLevel, isForcedPrediction := isForced,
    trail := trail, sourceTag := "RealTimeFusionV42", predictionQualityScore := pqs }

/-- `ultraAIPredict` from the confirmed-history check onward
(predictionLogic.js:1995-2182).  The stages that run before this point —
context classification, stability/entropy analysis, reflexive-correction
check, drift detection, and the previous cycle's performance update — are
taken as the already-computed parameters `trendCtx`, `stabilityIsStable`,
`stabilityReason`, `entropyState`, `isReflexive`, `driftState`, and
`trailPrefix` (their own state machines are verified separately above);
the regime profile entry is the pair `profileTypes`/`profileAggression`;
the raw analyzer outputs are the abstract list `rawSignals`. -/
def ultraAIPredictCore (env : Env) (history : List HistoryRecord) (trendCtx : TrendContext)
    (stabilityIsStable : Bool) (stabilityReason : String) (entropyState : String)
    (isReflexive : Bool) (driftState : String) (profileTypes : List String)
    (profileAggression : ℚ) (rawSignals : List RawSignal) (perfState : SigPerfState)
    (periodFull : ℤ) (longTermGlobalAccuracy : ℚ) (trailPrefix : List String) :
    PredOutput × SigPerfState :=
  let confirmedHistory := history.filter (fun p => p.actual ≠ none ∧ p.actualNumber ≠ none)
  if confirmedHistory.length < 52 then
    (forcedReturn env (trailPrefix ++ ["InsufficientHistory_ForceRandom"])
      "InsufficientHistory", perfState)
  else
    let aggression := cycleAggression env profileAggression stabilityIsStable isReflexive
      entropyState driftState
    let v := buildValidSignals rawSignals profileTypes aggression
      periodFull trendCtx.volatility history.length trendCtx.strength perfState
    if v.1 = [] then
      (forcedReturn env (trailPrefix ++ ["NoValidSignals_ForceRandom"]) "NoValidSignals",
        v.2.2)
    else
      (mainFusion env trendCtx stabilityIsStable stabilityReason entropyState isReflexive
        driftState longTermGlobalAccuracy v.1 v.2.1 trailPrefix, v.2.2)

/-! Concrete fixtures used by witnesses and counterexamples. -/

/-- Fixture: a quiet cycle environment (non-prime hour, most favourable
external-data draws, zero jitter). -/
def sampleEnv : Env :=
  { istHour := 0, weatherIdx := 0, newsIdx := 0, mktVolIdx := 0,
    randDecisionBig := true, jitter := 0 }

/-- Fixture: one confirmed record with digit 5. -/
def sampleRecord : HistoryRecord :=
  { actual := some 5, actualNumber := some 5, statusWinLoss := true }

/-- Fixture: 52 confirmed records, clearing the insufficient-history gate. -/
def sampleHistory : List HistoryRecord := List.replicate 52 sampleRecord

/-- Fixture: a calm medium-volatility context. -/
def sampleTrendCtx : TrendContext :=
  { strength := "WEAK", direction := "NONE", volatility := "MEDIUM",
    details := [], macroRegime := "WEAK_MED_VOL", isTransitioning := false }

/-- Fixture: three agreeing analyzer votes from three different categories. -/
def sampleRawSignals : List RawSignal :=
  [ { stype := "trend", source := "MACD", prediction := BS.big, weight := 1/5 },
    { stype := "momentum", source := "RSI", prediction := BS.big, weight := 1/5 },
    { stype := "meanRev", source := "ZScoreAnomaly", prediction := BS.big, weight := 1/5 } ]

/-- Fixture: a source legitimately on probation (15-sample window at
accuracy 0, i.e. below 0.40) with all other adjustment factors neutral. -/
def probationPerf : PerfRecord :=
  { defaultPerf with
    total := 20, recentAccuracy := List.replicate 15 false,
    lastUpdatePeriod := some 1, lastActivePeriod := some 1, isOnProbation := true }

/-- Fixture: a performance table holding only `probationPerf` under `"X"`. -/
def probationState : SigPerfState := [("X", probationPerf)]

/-- Fixture: a source one observation short of a full 15-sample window, all
hits, due for an update in period 1. -/
def chasePerf : PerfRecord :=
  { defaultPerf with
    total := 19, recentAccuracy := List.replicate 14 true,
    lastUpdatePeriod := some 0, lastActivePeriod := some 0 }

/-- Fixture: a performance table holding only `chasePerf` under `"S"`. -/
def chaseState : SigPerfState := [("S", chasePerf)]

/-- Fixture: carry stats recording a confidence-level-3 miss (predicted BIG,
digit 2 realised SMALL). -/
def missStats : StatsView :=
  { lastFinalConfidence := some (8/10), lastActualOutcome := some 2,
    lastPredictedOutcome := some BS.big, lastConfidenceLevel := 3 }

/-- The invariant a processed contributing signal leaves behind in the
performance table for its source name: the record exists, is stamped with
the period, has a nonzero total, and owns its volatility bucket (used to
prove the once-per-period idempotence). -/
def StepInv (periodFull : ℤ) (vol : String) (st : SigPerfState) (src : String) : Prop :=
  src = "" ∨
    ∃ p, lookupEntry st src = some p ∧
      p.lastActivePeriod = some periodFull ∧ p.lastUpdatePeriod = some periodFull ∧
      p.total ≠ 0 ∧ lookupVol p.performanceByVolatility vol ≠ none

/-! ### Association-list helper lemmas -/

theorem lookupEntry_setEntry_self (st : SigPerfState) (k : String) (v : PerfRecord) :
    lookupEntry (setEntry st k v) k = some v := by
  induction st with
  | nil => simp [setEntry, lookupEntry]
  | cons hd t ih =>
    obtain ⟨k', v'⟩ := hd
    by_cases hk : k' = k
    · simp [setEntry, hk, lookupEntry]
    · simp [setEntry, hk, lookupEntry, ih]

theorem lookupEntry_setEntry_ne (st : SigPerfState) (k k' : String) (v : PerfRecord)
    (h : k' ≠ k) : lookupEntry (setEntry st k' v) k = lookupEntry st k := by
  induction st with
  | nil => simp [setEntry, lookupEntry, h]
  | cons hd t ih =>
    obtain ⟨k₀, v₀⟩ := hd
    by_cases hk : k₀ = k'
    · subst hk
      simp [setEntry, lookupEntry, h]
    · simp only [setEntry, if_neg hk, lookupEntry]
      by_cases hk2 : k₀ = k
      · simp [hk2]
      · simp [hk2, ih]

theorem setEntry_eq_of_lookup (st : SigPerfState) (k : String) (v : PerfRecord)
    (h : lookupEntry st k = some v) : setEntry st k v = st := by
  induction st with
  | nil => simp [lookupEntry] at h
  | cons hd t ih =>
    obtain ⟨k₀, v₀⟩ := hd
    by_cases hk : k₀ = k
    · subst hk
      simp only [lookupEntry, if_true, eq_self_iff_true, Option.some.injEq] at h
      simp [setEntry, h.symm]
    · simp only [lookupEntry, if_neg hk] at h
      simp [setEntry, hk, ih h]

theorem lookupVol_setVol_self (l : List (String × VolPerf)) (k : String) (v : VolPerf) :
    lookupVol (setVol l k v) k = some v := by
  induction l with
  | nil => simp [setVol, lookupVol]
  | cons hd t ih =>
    obtain ⟨k', v'⟩ := hd
    by_cases hk : k' = k
    · simp [setVol, hk, lookupVol]
    · simp [setVol, hk, lookupVol, ih]

section RatReducible

attribute [local semireducible] Rat.inv Rat.mul Rat.add Rat.sub

/-! ### C9 — determinism of the market-context classifiers -/

/-- **C9**: `getTrendContext` and `getMarketRegimeAndTrendContext` are
deterministic functions of the supplied history: calling either twice on
the same history (and the same `Math.sqrt`) yields identical context
records in every field (strength, direction, volatility, macroRegime,
isTransitioning, details).  In the source neither function writes to
`history` (`map`/`filter`/`slice` allocate fresh arrays) nor reads any
mutable, random, or clock state, so their embedding is a pure function and
the history value is left unmodified by construction. -/
theorem classifier_deterministic (sq : ℚ → ℚ) (history : List HistoryRecord) :
    getMarketRegimeAndTrendContext sq history = getMarketRegimeAndTrendContext sq history ∧
    getTrendContext sq history = getTrendContext sq history :=
  ⟨rfl, rfl⟩

/-! ### C7 — entropy "not computable" conventions -/

/-- **C7, counterexample**: the claim says a window that cannot be evaluated
because the outcomes list is shorter than the window size yields `1.0`; the
source (predictionLogic.js:607) returns `null` there — on the empty list
with window 1 the embedded function returns `none`, not `1`. -/
theorem entropy_short_window_counterexample :
    calculateEntropyForSignal (fun _ => 0) [] 1 = none ∧
    calculateEntropyForSignal (fun _ => 0) [] 1 ≠ some 1 := by
  constructor
  · rfl
  · intro h
    simp [calculateEntropyForSignal] at h

/-- **C7, amended**: `calculateEntropyForSignal` returns `null` (absence,
"skip this signal") when the outcomes list is shorter than the window, and
returns the conventional maximally-uncertain `1.0` when the window is
available but contains no valid BIG/SMALL outcome at all. -/
theorem entropy_not_computable_conventions (lg : ℚ → ℚ) (outcomes : List (Option BS))
    (w : ℕ) :
    (outcomes.length < w → calculateEntropyForSignal lg outcomes w = none) ∧
    (w ≤ outcomes.length → (∀ o ∈ outcomes.take w, o = none) →
      calculateEntropyForSignal lg outcomes w = some 1) := by
  constructor
  · intro h
    simp [calculateEntropyForSignal, h]
  · intro hw hnone
    have hbig : (outcomes.take w).filter (fun o => decide (o = some BS.big)) = [] := by
      refine List.filter_eq_nil_iff.mpr ?_
      intro o ho
      simp [hnone o ho]
    have hsmall : (outcomes.take w).filter (fun o => decide (o = some BS.small)) = [] := by
      refine List.filter_eq_nil_iff.mpr ?_
      intro o ho
      simp [hnone o ho]
    simp [calculateEntropyForSignal, Nat.not_lt.mpr hw, hbig, hsmall]

/-- **C7, witness** for the amended theorem: a one-element `null` window. -/
theorem entropy_not_computable_witness :
    calculateEntropyForSignal (fun _ => 0) [none] 2 = none ∧
    calculateEntropyForSignal (fun _ => 0) [none] 1 = some 1 :=
  ⟨(entropy_not_computable_conventions (fun _ => 0) [none] 2).1 (by decide),
   (entropy_not_computable_conventions (fun _ => 0) [none] 1).2 (by decide)
     (by intro o ho; simpa using ho)⟩

/-! ### C5 / C10 — the drift-detector state machine -/

theorem withTop_le_mul_self (c : ℚ) (hc : 1 ≤ c) {x : WithTop ℚ} (hx : 0 ≤ x) :
    x ≤ ((c : ℚ) : WithTop ℚ) * x := by
  induction x using WithTop.recTopCoe with
  | top =>
    rw [WithTop.mul_top (by exact_mod_cast (by linarith : (c : ℚ) ≠ 0))]
  | coe v =>
    rw [← WithTop.coe_mul, WithTop.coe_le_coe]
    have hv : 0 ≤ v := by exact_mod_cast hx
    nlinarith

/-- **C5**: `detectConceptDrift`, fed the single most recent correctness
bit, implements exactly the claimed DDM transition rule over the pre-update
minima: `p_i + s_i > p_min + 3·s_min` reports DRIFT and hard-resets
`(p_min, s_min, n) = (∞, ∞, 1)`; else `p_i + s_i > p_min + 2·s_min` reports
WARNING; else it reports STABLE, refreshing `(p_min, s_min)` to
`(p_i, s_i)` exactly when `p_i + s_i` improves on `p_min + s_min`.
(Quantified over any model `sq` of `Math.sqrt` with nonnegative values,
and any state whose stored `s_min` is nonnegative — both hold for every
reachable state.) -/
theorem drift_transition_rule (sq : ℚ → ℚ) (st : DriftState) (b : Bool)
    (hsq : ∀ x, 0 ≤ sq x) (hsmin : (0 : WithTop ℚ) ≤ st.s_min) :
    detectConceptDrift sq st b =
      (let p := driftUpdatedMean st b
       let s := sq (p * (1 - p) / ((st.n + 1 : ℕ) : ℚ))
       if ((p + s : ℚ) : WithTop ℚ) > st.p_min + ((3 : ℚ) : WithTop ℚ) * st.s_min then
         ({ p_min := ⊤, s_min := ⊤, n := 1, p_i := p }, "DRIFT")
       else if ((p + s : ℚ) : WithTop ℚ) > st.p_min + ((2 : ℚ) : WithTop ℚ) * st.s_min then
         ({ p_min := st.p_min, s_min := st.s_min, n := st.n + 1, p_i := p }, "WARNING")
       else if ((p + s : ℚ) : WithTop ℚ) < st.p_min + st.s_min then
         ({ p_min := ((p : ℚ) : WithTop ℚ), s_min := ((s : ℚ) : WithTop ℚ),
            n := st.n + 1, p_i := p }, "STABLE")
       else ({ p_min := st.p_min, s_min := st.s_min, n := st.n + 1, p_i := p }, "STABLE")) := by
  simp only [detectConceptDrift]
  set p := driftUpdatedMean st b with hp
  set s := sq (p * (1 - p) / ((st.n + 1 : ℕ) : ℚ)) with hs0
  have hs : 0 ≤ s := hsq _
  by_cases hlt : ((p + s : ℚ) : WithTop ℚ) < st.p_min + st.s_min
  · have h3 : st.p_min + st.s_min ≤ st.p_min + ((3 : ℚ) : WithTop ℚ) * st.s_min :=
      add_le_add_left (withTop_le_mul_self 3 (by norm_num) hsmin) _
    have h2 : st.p_min + st.s_min ≤ st.p_min + ((2 : ℚ) : WithTop ℚ) * st.s_min :=
      add_le_add_left (withTop_le_mul_self 2 (by norm_num) hsmin) _
    have hc3 : ¬(((p + s : ℚ) : WithTop ℚ) > st.p_min + ((3 : ℚ) : WithTop ℚ) * st.s_min) :=
      (hlt.trans_le h3).asymm
    have hc2 : ¬(((p + s : ℚ) : WithTop ℚ) > st.p_min + ((2 : ℚ) : WithTop ℚ) * st.s_min) :=
      (hlt.trans_le h2).asymm
    have hd : ¬(((p + s : ℚ) : WithTop ℚ) >
        ((p : ℚ) : WithTop ℚ) + ((3 : ℚ) : WithTop ℚ) * ((s : ℚ) : WithTop ℚ)) := by
      rw [← WithTop.coe_mul, ← WithTop.coe_add, gt_iff_lt, WithTop.coe_lt_coe]
      intro h
      linarith
    have hw : ¬(((p + s : ℚ) : WithTop ℚ) >
        ((p : ℚ) : WithTop ℚ) + ((2 : ℚ) : WithTop ℚ) * ((s : ℚ) : WithTop ℚ)) := by
      rw [← WithTop.coe_mul, ← WithTop.coe_add, gt_iff_lt, WithTop.coe_lt_coe]
      intro h
      linarith
    simp only [if_pos hlt, if_neg hd, if_neg hw, if_neg hc3, if_neg hc2]
  · simp only [if_neg hlt]

/-- **C5, witness**: the very first update of a fresh detector is STABLE and
sets both minima to the new `p_i + s_i` components. -/
theorem drift_transition_witness :
    detectConceptDrift (fun _ => 0) initialDriftState true =
      ({ p_min := ((0 : ℚ) : WithTop ℚ), s_min := ((0 : ℚ) : WithTop ℚ), n := 1, p_i := 0 },
        "STABLE") := by
  rw [drift_transition_rule (fun _ => 0) initialDriftState true (fun x => le_refl 0) le_top]
  decide

theorem detectConceptDrift_fst_p_i (sq : ℚ → ℚ) (st : DriftState) (b : Bool) :
    ((detectConceptDrift sq st b).1).p_i = driftUpdatedMean st b := by
  simp only [detectConceptDrift]
  split_ifs <;> rfl

/-- **C10**: a DRIFT report resets only `(p_min, s_min, n)`; the stored
running mean `p_i` keeps the value just computed from the pre-drift mean,
so with `n = 1` (the post-drift count) the next update blends the new
correctness bit with the stale mean: `p_i' = (p_i + errorBit) / 2` — the
error estimate is not restarted from scratch. -/
theorem drift_reset_keeps_mean (sq : ℚ → ℚ) (st : DriftState) (b : Bool) :
    ((detectConceptDrift sq st b).2 = "DRIFT" →
      (detectConceptDrift sq st b).1 =
        { p_min := ⊤, s_min := ⊤, n := 1, p_i := driftUpdatedMean st b }) ∧
    (st.n = 1 →
      ((detectConceptDrift sq st b).1).p_i = (st.p_i + (if b then 0 else 1)) / 2) := by
  constructor
  · intro hdrift
    simp only [detectConceptDrift] at hdrift ⊢
    split_ifs at hdrift ⊢ <;> simp_all
  · intro hn
    have hmean : driftUpdatedMean st b = (st.p_i + (if b then 0 else 1)) / 2 := by
      simp only [driftUpdatedMean, hn]
      norm_num
      ring
    rw [detectConceptDrift_fst_p_i]
    exact hmean

/-- **C10, witness**: a state with minima 0, count 1, stale mean 1 fed a
miss: the call reports DRIFT, resets the minima and count, and stores
`p_i = (1 + 1)/2 = 1` — the stale mean blended with the new error bit. -/
theorem drift_reset_witness :
    (detectConceptDrift (fun _ => 0)
        ⟨((0 : ℚ) : WithTop ℚ), ((0 : ℚ) : WithTop ℚ), 1, 1⟩ false).1 =
      { p_min := ⊤, s_min := ⊤, n := 1, p_i := 1 } ∧
    (detectConceptDrift (fun _ => 0)
        ⟨((0 : ℚ) : WithTop ℚ), ((0 : ℚ) : WithTop ℚ), 1, 1⟩ false).1.p_i = (1 + 1) / 2 := by
  have h := drift_reset_keeps_mean (fun _ => 0)
    ⟨((0 : ℚ) : WithTop ℚ), ((0 : ℚ) : WithTop ℚ), 1, 1⟩ false
  constructor
  · rw [h.1 (by decide)]
    decide
  · rw [h.2 rfl]
    decide

/-! ### C6 — the reflexive-correction state machine -/

/-- **C6**: (i) while the countdown is active, each call decrements it,
reports `true`, and leaves the consecutive-miss counter untouched — the
mechanism cannot be re-triggered while active; (ii) a first
confidence-level-3 miss takes the counter from 0 to 1 without triggering;
(iii) exactly the second consecutive miss triggers: it arms the 5-cycle
countdown and resets the counter to 0; (iv) any cycle whose previous
prediction was not a high-confidence miss (in particular a correct
high-confidence prediction) leaves the counter at 0; (v) while the
correction is reported, the cycle's contextual aggression is multiplied by
0.25. -/
theorem reflexive_correction_behaviour :
    (∀ (stats : Option StatsView) (st : ReflexState), 0 < st.reflexiveCorrectionActive →
      checkForAnomalousPerformance stats st =
        (true, { consecutiveHighConfLosses := st.consecutiveHighConfLosses,
                 reflexiveCorrectionActive := st.reflexiveCorrectionActive - 1 })) ∧
    (∀ (s : StatsView) (st : ReflexState), st.reflexiveCorrectionActive = 0 →
      st.consecutiveHighConfLosses = 0 →
      s.lastFinalConfidence ≠ none → s.lastActualOutcome ≠ none → isHighConfMiss s = true →
      checkForAnomalousPerformance (some s) st =
        (false, { consecutiveHighConfLosses := 1, reflexiveCorrectionActive := 0 })) ∧
    (∀ (s : StatsView) (st : ReflexState), st.reflexiveCorrectionActive = 0 →
      st.consecutiveHighConfLosses = 1 →
      s.lastFinalConfidence ≠ none → s.lastActualOutcome ≠ none → isHighConfMiss s = true →
      checkForAnomalousPerformance (some s) st =
        (true, { consecutiveHighConfLosses := 0, reflexiveCorrectionActive := 5 })) ∧
    (∀ (s : StatsView) (st : ReflexState), st.reflexiveCorrectionActive = 0 →
      s.lastFinalConfidence ≠ none → s.lastActualOutcome ≠ none → isHighConfMiss s = false →
      ((checkForAnomalousPerformance (some s) st).2).consecutiveHighConfLosses = 0) ∧
    (∀ (profileAggression primeTimeAggression : ℚ) (driftState : String) (conc : Bool),
      regimeAggression profileAggression primeTimeAggression true driftState conc =
        profileAggression * primeTimeAggression * (25/100)) := by
  refine ⟨?_, ?_, ?_, ?_, ?_⟩
  · intro stats st h
    obtain ⟨c, a⟩ := st
    simp only [checkForAnomalousPerformance]
    rw [if_pos h]
  · intro s st ha hc h1 h2 hm
    obtain ⟨c, a⟩ := st
    simp only at ha hc
    subst ha hc
    obtain ⟨q, hq⟩ := Option.ne_none_iff_exists'.mp h1
    obtain ⟨z, hz⟩ := Option.ne_none_iff_exists'.mp h2
    simp [checkForAnomalousPerformance, hq, hz, hm]
  · intro s st ha hc h1 h2 hm
    obtain ⟨c, a⟩ := st
    simp only at ha hc
    subst ha hc
    obtain ⟨q, hq⟩ := Option.ne_none_iff_exists'.mp h1
    obtain ⟨z, hz⟩ := Option.ne_none_iff_exists'.mp h2
    simp [checkForAnomalousPerformance, hq, hz, hm]
  · intro s st ha h1 h2 hm
    obtain ⟨c, a⟩ := st
    simp only at ha
    subst ha
    obtain ⟨q, hq⟩ := Option.ne_none_iff_exists'.mp h1
    obtain ⟨z, hz⟩ := Option.ne_none_iff_exists'.mp h2
    by_cases htr : 2 ≤ c
    · simp [checkForAnomalousPerformance, hq, hz, hm, htr]
    · simp [checkForAnomalousPerformance, hq, hz, hm, htr]
  · intro pa pt d conc
    simp [regimeAggression]

/-- **C6, witness**: with the countdown idle and one recorded
confidence-level-3 miss, a second miss (predicted BIG at level 3, digit 2
realised SMALL) triggers: countdown 5, counter reset, correction
reported. -/
theorem reflexive_correction_witness :
    checkForAnomalousPerformance (some missStats)
        { consecutiveHighConfLosses := 1, reflexiveCorrectionActive := 0 } =
      (true, { consecutiveHighConfLosses := 0, reflexiveCorrectionActive := 5 }) :=
  reflexive_correction_behaviour.2.2.1 missStats
    { consecutiveHighConfLosses := 1, reflexiveCorrectionActive := 0 } rfl rfl
    (by decide) (by decide) (by decide)

/-! ### C3 / C4 — probation and the adjustment-factor update -/

theorem lookupVol_append_single (l : List (String × VolPerf)) (k : String) (v : VolPerf) :
    lookupVol (l ++ [(k, v)]) k ≠ none := by
  induction l with
  | nil => simp [lookupVol]
  | cons hd t ih =>
    obtain ⟨k', v'⟩ := hd
    by_cases hk : k' = k
    · simp [lookupVol, hk]
    · simpa [lookupVol, hk] using ih

theorem ensureBucket_lastActivePeriod (p : PerfRecord) (vol : String) :
    (ensureBucket p vol).lastActivePeriod = p.lastActivePeriod := by
  unfold ensureBucket
  split <;> rfl

theorem ensureBucket_total (p : PerfRecord) (vol : String) :
    (ensureBucket p vol).total = p.total := by
  unfold ensureBucket
  split <;> rfl

theorem ensureBucket_lastUpdatePeriod (p : PerfRecord) (vol : String) :
    (ensureBucket p vol).lastUpdatePeriod = p.lastUpdatePeriod := by
  unfold ensureBucket
  split <;> rfl

theorem ensureBucket_alphaFactor (p : PerfRecord) (vol : String) :
    (ensureBucket p vol).alphaFactor = p.alphaFactor := by
  unfold ensureBucket
  split <;> rfl

theorem ensureBucket_isOnProbation (p : PerfRecord) (vol : String) :
    (ensureBucket p vol).isOnProbation = p.isOnProbation := by
  unfold ensureBucket
  split <;> rfl

theorem ensureBucket_hasBucket (p : PerfRecord) (vol : String) :
    lookupVol (ensureBucket p vol).performanceByVolatility vol ≠ none := by
  unfold ensureBucket
  split
  · simp_all
  · exact lookupVol_append_single _ _ _

theorem ensureBucket_of_has (p : PerfRecord) (vol : String)
    (h : lookupVol p.performanceByVolatility vol ≠ none) : ensureBucket p vol = p := by
  unfold ensureBucket
  split
  · rfl
  · simp_all

/-- Field-level characterisation of one guarded per-source update: counters
advance, the period stamp is set, and — once the observation and window
thresholds are met — `currentAdjustmentFactor`, probation, and `alphaFactor`
follow the formulas of predictionLogic.js:1424-1447 (stated over the
post-push window `q.recentAccuracy`). -/
theorem updateOnePerf_spec (p : PerfRecord) (sig : ContribSignal) (a : BS) (period : ℤ)
    (vol : String) (conf : ℚ) (conc chaos : Bool) (q : PerfRecord)
    (hq : q = updateOnePerf p sig a period vol conf conc chaos) :
    q.total = p.total + 1 ∧
    q.lastActivePeriod = some period ∧
    q.lastUpdatePeriod = p.lastUpdatePeriod ∧
    (MIN_OBSERVATIONS_FOR_ADJUST ≤ q.total →
      PROBATION_MIN_OBSERVATIONS ≤ q.recentAccuracy.length →
      q.currentAdjustmentFactor =
        min (max (1 + (windowAccuracy q.recentAccuracy - 1/2) * (35/10)) MIN_WEIGHT_FACTOR)
          MAX_WEIGHT_FACTOR ∧
      q.isOnProbation =
        (if PROBATION_MIN_OBSERVATIONS ≤ q.recentAccuracy.length ∧
            windowAccuracy q.recentAccuracy < PROBATION_THRESHOLD_ACCURACY then true
         else if windowAccuracy q.recentAccuracy > PROBATION_THRESHOLD_ACCURACY + 15/100
         then false
         else p.isOnProbation) ∧
      q.alphaFactor =
        (let rate := ALPHA_UPDATE_RATE *
            (if windowAccuracy q.recentAccuracy < 35/100 then 175/100
             else if windowAccuracy q.recentAccuracy < 45/100 then 14/10 else 1)
         if q.currentAdjustmentFactor > p.alphaFactor then
           min MAX_ALPHA_FACTOR
             (p.alphaFactor + rate * (q.currentAdjustmentFactor - p.alphaFactor))
         else
           max MIN_ALPHA_FACTOR
             (p.alphaFactor - rate * (p.alphaFactor - q.currentAdjustmentFactor)))) := by
  subst hq
  simp only [updateOnePerf]
  split
  next hcond => exact ⟨rfl, rfl, rfl, fun _ _ => ⟨rfl, rfl, rfl⟩⟩
  next hcond =>
    refine ⟨rfl, rfl, rfl, ?_⟩
    intro h10 h15
    exact absurd ⟨h10, h15⟩ hcond

/-- The single-signal call of `updateSignalPerformance` writes exactly the
guarded per-source update (plus the `lastUpdatePeriod` stamp) for a source
whose record exists and whose idempotence guard passes. -/
theorem updateSignal_single (sig : ContribSignal) (a : BS) (period : ℤ) (vol : String)
    (conf : ℚ) (conc chaos : Bool) (st : SigPerfState) (p : PerfRecord)
    (hs : sig.source ≠ "") (hp : lookupEntry st sig.source = some p)
    (hg : p.lastActivePeriod ≠ some period ∨ p.total = 0) :
    lookupEntry (updateSignalPerformance [sig] (some a) period vol conf conc chaos st)
        sig.source =
      some { updateOnePerf (ensureBucket p vol) sig a period vol conf conc chaos with
             lastUpdatePeriod := some period } := by
  have hg' : (ensureBucket p vol).lastActivePeriod ≠ some period ∨
      (ensureBucket p vol).total = 0 := by
    rcases hg with h | h
    · exact Or.inl (by rw [ensureBucket_lastActivePeriod]; exact h)
    · exact Or.inr (by rw [ensureBucket_total]; exact h)
  have e1 : updateSignalPerformance [sig] (some a) period vol conf conc chaos st
      = updateSignalStep a period vol conf conc chaos st sig := by
    simp only [updateSignalPerformance, List.foldl]
    rw [if_neg (by simp : ¬([sig] : List ContribSignal) = [])]
  rw [e1]
  simp only [updateSignalStep]
  rw [if_neg hs, hp]
  simp only [Option.getD_some]
  rw [if_pos hg']
  exact lookupEntry_setEntry_self _ _ _

theorem dynFactor_le_cap (q : PerfRecord) (vol : String) (h : q.isOnProbation = true) :
    dynFactor q vol ≤ PROBATION_WEIGHT_CAP := by
  simp only [dynFactor, h, if_true]
  exact min_le_right _ _

/-- **C3** (amended): (i) after a guarded per-source update, a recent window
of at least `PROBATION_MIN_OBSERVATIONS = 15` samples with accuracy below
`PROBATION_THRESHOLD_ACCURACY = 0.40` (given the `total ≥ 10` observation
floor, which every reachable record with a 15-sample window satisfies)
leaves the source with `isOnProbation = true`; (ii) accuracy above 0.55
clears probation; (iii) while a source is on probation at read time,
`getDynamicWeightAdjustment` returns at most
`max (baseWeight × PROBATION_WEIGHT_CAP) MIN_ABSOLUTE_WEIGHT` — the
absolute-minimum-weight floor, not `baseWeight × 0.10` alone, bounds the
result (see the counterexample). -/
theorem probation_invariant :
    (∀ (sig : ContribSignal) (a : BS) (period : ℤ) (vol : String) (conf : ℚ)
        (conc chaos : Bool) (st : SigPerfState) (p q : PerfRecord),
      sig.source ≠ "" → lookupEntry st sig.source = some p →
      (p.lastActivePeriod ≠ some period ∨ p.total = 0) →
      lookupEntry (updateSignalPerformance [sig] (some a) period vol conf conc chaos st)
          sig.source = some q →
      MIN_OBSERVATIONS_FOR_ADJUST ≤ q.total →
      PROBATION_MIN_OBSERVATIONS ≤ q.recentAccuracy.length →
      windowAccuracy q.recentAccuracy < PROBATION_THRESHOLD_ACCURACY →
      q.isOnProbation = true) ∧
    (∀ (sig : ContribSignal) (a : BS) (period : ℤ) (vol : String) (conf : ℚ)
        (conc chaos : Bool) (st : SigPerfState) (p q : PerfRecord),
      sig.source ≠ "" → lookupEntry st sig.source = some p →
      (p.lastActivePeriod ≠ some period ∨ p.total = 0) →
      lookupEntry (updateSignalPerformance [sig] (some a) period vol conf conc chaos st)
          sig.source = some q →
      MIN_OBSERVATIONS_FOR_ADJUST ≤ q.total →
      PROBATION_MIN_OBSERVATIONS ≤ q.recentAccuracy.length →
      windowAccuracy q.recentAccuracy > PROBATION_THRESHOLD_ACCURACY + 15/100 →
      q.isOnProbation = false) ∧
    (∀ (source : String) (baseWeight : ℚ) (period : ℤ) (vol : String) (n : ℕ)
        (st : SigPerfState) (q : PerfRecord), 0 ≤ baseWeight →
      lookupEntry ((getDynamicWeightAdjustment source baseWeight period vol n st).2) source =
        some q →
      q.isOnProbation = true →
      (getDynamicWeightAdjustment source baseWeight period vol n st).1 ≤
        max (baseWeight * PROBATION_WEIGHT_CAP) MIN_ABSOLUTE_WEIGHT) := by
  refine ⟨?_, ?_, ?_⟩
  · intro sig a period vol conf conc chaos st p q hs hp hg hlook h10 h15 hacc
    rw [updateSignal_single sig a period vol conf conc chaos st p hs hp hg,
      Option.some.injEq] at hlook
    subst hlook
    obtain ⟨-, -, -, hcond⟩ := updateOnePerf_spec (ensureBucket p vol) sig a period vol conf
      conc chaos _ rfl
    obtain ⟨-, hprob, -⟩ := hcond h10 h15
    rw [hprob, if_pos ⟨h15, hacc⟩]
  · intro sig a period vol conf conc chaos st p q hs hp hg hlook h10 h15 hacc
    rw [updateSignal_single sig a period vol conf conc chaos st p hs hp hg,
      Option.some.injEq] at hlook
    subst hlook
    obtain ⟨-, -, -, hcond⟩ := updateOnePerf_spec (ensureBucket p vol) sig a period vol conf
      conc chaos _ rfl
    obtain ⟨-, hprob, -⟩ := hcond h10 h15
    rw [hprob, if_neg (by intro hand; linarith [hand.2]), if_pos hacc]
  · intro source baseWeight period vol n st q hbw hlook hprob
    simp only [getDynamicWeightAdjustment] at hlook ⊢
    cases hl : lookupEntry st source with
    | none =>
      simp only [hl, lookupEntry_setEntry_self, Option.some.injEq] at hlook
      subst hlook
      simp [defaultPerf] at hprob
    | some perf =>
      simp only [hl, lookupEntry_setEntry_self, Option.some.injEq] at hlook
      subst hlook
      simp only [hl]
      have hcap := dynFactor_le_cap _ vol hprob
      exact max_le_max (mul_le_mul_of_nonneg_left hcap hbw) (le_refl _)

/-- **C3, counterexample to the claim as stated**: a source legitimately on
probation (15-sample window at accuracy 0 < 0.40) called with
`baseWeight = 1/500`: the probation cap would allow at most
`baseWeight × 0.10 = 1/5000`, but the `MIN_ABSOLUTE_WEIGHT = 3/10000` floor
(predictionLogic.js:1365) makes the returned effective weight exceed
`baseWeight × PROBATION_WEIGHT_CAP`. -/
theorem probation_cap_counterexample :
    probationPerf.isOnProbation = true ∧
    PROBATION_MIN_OBSERVATIONS ≤ probationPerf.recentAccuracy.length ∧
    windowAccuracy probationPerf.recentAccuracy < PROBATION_THRESHOLD_ACCURACY ∧
    (getDynamicWeightAdjustment "X" (1/500) 1 "MEDIUM" 5 probationState).1 >
      (1/500) * PROBATION_WEIGHT_CAP := by
  refine ⟨rfl, by decide, by decide, by decide⟩

/-- **C3, witness** for the amended theorem: a fresh miss pushes a probation
source's window to 16 misses in 17 samples (accuracy < 0.40), probation is
(re)set, and a probated read with `baseWeight = 1/500` stays below
`max (baseWeight × 0.10) MIN_ABSOLUTE_WEIGHT`. -/
theorem probation_invariant_witness :
    (((lookupEntry (updateSignalPerformance [⟨"X", some BS.big⟩] (some BS.small) 2 "MEDIUM" 0
        false false probationState) "X").getD defaultPerf).isOnProbation = true) ∧
    (getDynamicWeightAdjustment "X" (1/500) 1 "MEDIUM" 5 probationState).1 ≤
      max ((1/500) * PROBATION_WEIGHT_CAP) MIN_ABSOLUTE_WEIGHT := by
  constructor
  · exact probation_invariant.1 ⟨"X", some BS.big⟩ BS.small 2 "MEDIUM" 0 false false
      probationState probationPerf _ (by decide) (by decide) (by decide) (by decide)
      (by decide) (by decide) (by decide)
  · exact probation_invariant.2.2 "X" (1/500) 1 "MEDIUM" 5 probationState
      (dynPerfRefresh probationPerf 1 5) (by norm_num) (by decide) (by decide)

theorem alphaChase_bounds (α t rate : ℚ)
    (hα1 : MIN_ALPHA_FACTOR ≤ α) (hα2 : α ≤ MAX_ALPHA_FACTOR)
    (hr0 : 0 ≤ rate) (hr1 : rate ≤ 1) :
    MIN_ALPHA_FACTOR ≤ (if t > α then min MAX_ALPHA_FACTOR (α + rate * (t - α))
        else max MIN_ALPHA_FACTOR (α - rate * (α - t))) ∧
    (if t > α then min MAX_ALPHA_FACTOR (α + rate * (t - α))
        else max MIN_ALPHA_FACTOR (α - rate * (α - t))) ≤ MAX_ALPHA_FACTOR ∧
    min α t ≤ (if t > α then min MAX_ALPHA_FACTOR (α + rate * (t - α))
        else max MIN_ALPHA_FACTOR (α - rate * (α - t))) ∧
    (if t > α then min MAX_ALPHA_FACTOR (α + rate * (t - α))
        else max MIN_ALPHA_FACTOR (α - rate * (α - t))) ≤ max α t := by
  have hMM : MIN_ALPHA_FACTOR ≤ MAX_ALPHA_FACTOR := by
    norm_num [MIN_ALPHA_FACTOR, MAX_ALPHA_FACTOR]
  split_ifs with h
  · have hx : α ≤ α + rate * (t - α) := by nlinarith
    have hxt : α + rate * (t - α) ≤ t := by nlinarith
    refine ⟨le_min hMM (le_trans hα1 hx), min_le_left _ _, ?_, ?_⟩
    · exact le_trans (min_le_left α t) (le_min hα2 hx)
    · exact le_trans (min_le_right _ _) (le_trans hxt (le_max_right α t))
  · have hta : t ≤ α := not_lt.mp h
    have hx : α - rate * (α - t) ≤ α := by nlinarith
    have htx : t ≤ α - rate * (α - t) := by nlinarith
    refine ⟨le_max_left _ _, max_le hMM (le_trans hx hα2), ?_, ?_⟩
    · exact le_trans (min_le_right α t) (le_trans htx (le_max_right _ _))
    · exact max_le (le_trans hα1 (le_max_left α t)) (le_trans hx (le_max_left α t))

/-- **C4**: whenever the guarded update fires and the updated record clears
`total ≥ MIN_OBSERVATIONS_FOR_ADJUST = 10` with a
`PROBATION_MIN_OBSERVATIONS = 15`-sample window, the stored
`currentAdjustmentFactor` equals
`clamp(1 + (recentAccuracy − 0.5) × 3.5, 0.05, 1.95)`, and `alphaFactor`
chases it with the asymmetric learning rate — ×1.4 once accuracy is below
0.45 and ×1.75 below 0.35 — staying clamped to `[0.4, 1.6]` and moving from
the old value toward the new factor. -/
theorem adjustment_factor_update (sig : ContribSignal) (a : BS) (period : ℤ) (vol : String)
    (conf : ℚ) (conc chaos : Bool) (st : SigPerfState) (p q : PerfRecord)
    (hs : sig.source ≠ "") (hp : lookupEntry st sig.source = some p)
    (hg : p.lastActivePeriod ≠ some period ∨ p.total = 0)
    (halpha : MIN_ALPHA_FACTOR ≤ p.alphaFactor ∧ p.alphaFactor ≤ MAX_ALPHA_FACTOR)
    (hlook : lookupEntry (updateSignalPerformance [sig] (some a) period vol conf conc chaos st)
        sig.source = some q)
    (h10 : MIN_OBSERVATIONS_FOR_ADJUST ≤ q.total)
    (h15 : PROBATION_MIN_OBSERVATIONS ≤ q.recentAccuracy.length) :
    q.currentAdjustmentFactor =
      min (max (1 + (windowAccuracy q.recentAccuracy - 1/2) * (35/10)) MIN_WEIGHT_FACTOR)
        MAX_WEIGHT_FACTOR ∧
    q.alphaFactor =
      (if q.currentAdjustmentFactor > p.alphaFactor then
        min MAX_ALPHA_FACTOR
          (p.alphaFactor +
            (ALPHA_UPDATE_RATE *
              (if windowAccuracy q.recentAccuracy < 35/100 then 175/100
               else if windowAccuracy q.recentAccuracy < 45/100 then 14/10 else 1)) *
            (q.currentAdjustmentFactor - p.alphaFactor))
      else
        max MIN_ALPHA_FACTOR
          (p.alphaFactor -
            (ALPHA_UPDATE_RATE *
              (if windowAccuracy q.recentAccuracy < 35/100 then 175/100
               else if windowAccuracy q.recentAccuracy < 45/100 then 14/10 else 1)) *
            (p.alphaFactor - q.currentAdjustmentFactor))) ∧
    MIN_ALPHA_FACTOR ≤ q.alphaFactor ∧ q.alphaFactor ≤ MAX_ALPHA_FACTOR ∧
    min p.alphaFactor q.currentAdjustmentFactor ≤ q.alphaFactor ∧
    q.alphaFactor ≤ max p.alphaFactor q.currentAdjustmentFactor := by
  rw [updateSignal_single sig a period vol conf conc chaos st p hs hp hg,
    Option.some.injEq] at hlook
  subst hlook
  obtain ⟨-, -, -, hcond⟩ := updateOnePerf_spec (ensureBucket p vol) sig a period vol conf
    conc chaos _ rfl
  obtain ⟨hadj, -, halph⟩ := hcond h10 h15
  rw [ensureBucket_alphaFactor] at halph
  have hrate : (0 : ℚ) ≤ ALPHA_UPDATE_RATE *
        (if windowAccuracy
            ({ updateOnePerf (ensureBucket p vol) sig a period vol conf conc chaos with
               lastUpdatePeriod := some period} : PerfRecord).recentAccuracy < 35/100
         then 175/100
         else if windowAccuracy
            ({ updateOnePerf (ensureBucket p vol) sig a period vol conf conc chaos with
               lastUpdatePeriod := some period} : PerfRecord).recentAccuracy < 45/100
         then (14 : ℚ)/10 else 1) ∧
      ALPHA_UPDATE_RATE *
        (if windowAccuracy
            ({ updateOnePerf (ensureBucket p vol) sig a period vol conf conc chaos with
               lastUpdatePeriod := some period} : PerfRecord).recentAccuracy < 35/100
         then 175/100
         else if windowAccuracy
            ({ updateOnePerf (ensureBucket p vol) sig a period vol conf conc chaos with
               lastUpdatePeriod := some period} : PerfRecord).recentAccuracy < 45/100
         then (14 : ℚ)/10 else 1) ≤ 1 := by
    constructor <;> (split_ifs <;> norm_num [ALPHA_UPDATE_RATE])
  have hb := alphaChase_bounds p.alphaFactor
    ({ updateOnePerf (ensureBucket p vol) sig a period vol conf conc chaos with
       lastUpdatePeriod := some period} : PerfRecord).currentAdjustmentFactor
    (ALPHA_UPDATE_RATE *
      (if windowAccuracy
          ({ updateOnePerf (ensureBucket p vol) sig a period vol conf conc chaos with
             lastUpdatePeriod := some period} : PerfRecord).recentAccuracy < 35/100
       then 175/100
       else if windowAccuracy
          ({ updateOnePerf (ensureBucket p vol) sig a period vol conf conc chaos with
             lastUpdatePeriod := some period} : PerfRecord).recentAccuracy < 45/100
       then (14 : ℚ)/10 else 1))
    halpha.1 halpha.2 hrate.1 hrate.2
  have halph' :
      ({ updateOnePerf (ensureBucket p vol) sig a period vol conf conc chaos with
         lastUpdatePeriod := some period} : PerfRecord).alphaFactor =
        (if ({ updateOnePerf (ensureBucket p vol) sig a period vol conf conc chaos with
               lastUpdatePeriod := some period} : PerfRecord).currentAdjustmentFactor >
            p.alphaFactor then
          min MAX_ALPHA_FACTOR
            (p.alphaFactor +
              (ALPHA_UPDATE_RATE *
                (if windowAccuracy
                    ({ updateOnePerf (ensureBucket p vol) sig a period vol conf conc chaos with
                       lastUpdatePeriod := some period} : PerfRecord).recentAccuracy < 35/100
                 then 175/100
                 else if windowAccuracy
                    ({ updateOnePerf (ensureBucket p vol) sig a period vol conf conc chaos with
                       lastUpdatePeriod := some period} : PerfRecord).recentAccuracy < 45/100
                 then (14 : ℚ)/10 else 1)) *
              (({ updateOnePerf (ensureBucket p vol) sig a period vol conf conc chaos with
                  lastUpdatePeriod := some period} : PerfRecord).currentAdjustmentFactor -
                p.alphaFactor))
        else
          max MIN_ALPHA_FACTOR
            (p.alphaFactor -
              (ALPHA_UPDATE_RATE *
                (if windowAccuracy
                    ({ updateOnePerf (ensureBucket p vol) sig a period vol conf conc chaos with
                       lastUpdatePeriod := some period} : PerfRecord).recentAccuracy < 35/100
                 then 175/100
                 else if windowAccuracy
                    ({ updateOnePerf (ensureBucket p vol) sig a period vol conf conc chaos with
                       lastUpdatePeriod := some period} : PerfRecord).recentAccuracy < 45/100
                 then (14 : ℚ)/10 else 1)) *
              (p.alphaFactor -
                ({ updateOnePerf (ensureBucket p vol) sig a period vol conf conc chaos with
                   lastUpdatePeriod := some period} : PerfRecord).currentAdjustmentFactor))) :=
    halph
  refine ⟨hadj, halph', ?_, ?_, ?_, ?_⟩
  · rw [halph']
    exact hb.1
  · rw [halph']
    exact hb.2.1
  · rw [halph']
    exact hb.2.2.1
  · rw [halph']
    exact hb.2.2.2

/-- **C4, witness**: a 19-observation all-hit source gains a 15th window
sample: the clamp formula yields `1.95`, and `alphaFactor` chases it from 1
to `1 + 0.04 × 0.95 = 1.038 = 519/500`. -/
theorem adjustment_factor_witness :
    ((lookupEntry (updateSignalPerformance [⟨"S", some BS.big⟩] (some BS.big) 1 "MEDIUM" 0
        false false chaseState) "S").getD defaultPerf).currentAdjustmentFactor = 39/20 ∧
    ((lookupEntry (updateSignalPerformance [⟨"S", some BS.big⟩] (some BS.big) 1 "MEDIUM" 0
        false false chaseState) "S").getD defaultPerf).alphaFactor = 519/500 := by
  have hlook : lookupEntry (updateSignalPerformance [⟨"S", some BS.big⟩] (some BS.big) 1
      "MEDIUM" 0 false false chaseState) "S" =
      some ((lookupEntry (updateSignalPerformance [⟨"S", some BS.big⟩] (some BS.big) 1
        "MEDIUM" 0 false false chaseState) "S").getD defaultPerf) := by decide
  have h := adjustment_factor_update ⟨"S", some BS.big⟩ BS.big 1 "MEDIUM" 0 false false
    chaseState chasePerf _ (by decide) (by decide) (by decide) (by decide) hlook
    (by decide) (by decide)
  refine ⟨?_, ?_⟩
  · rw [h.1]
    decide
  · rw [h.2.1, h.1]
    decide

/-! ### C8 — once-per-period idempotence of the performance update -/

theorem lookupVol_perfCounters (p : PerfRecord) (sig : ContribSignal) (a : BS) (period : ℤ)
    (vol : String) (conf : ℚ) (conc chaos : Bool) :
    lookupVol (perfCounters p sig a period vol conf conc chaos).performanceByVolatility vol
      ≠ none := by
  simp only [perfCounters]
  rw [lookupVol_setVol_self]
  simp

theorem lookupVol_updateOnePerf (p : PerfRecord) (sig : ContribSignal) (a : BS) (period : ℤ)
    (vol : String) (conf : ℚ) (conc chaos : Bool) :
    lookupVol (updateOnePerf p sig a period vol conf conc chaos).performanceByVolatility vol
      ≠ none := by
  simp only [updateOnePerf]
  split
  · exact lookupVol_perfCounters p sig a period vol conf conc chaos
  · exact lookupVol_perfCounters p sig a period vol conf conc chaos

theorem step_inv_self (a : BS) (period : ℤ) (vol : String) (conf : ℚ) (conc chaos : Bool)
    (st : SigPerfState) (sig : ContribSignal) :
    StepInv period vol (updateSignalStep a period vol conf conc chaos st sig) sig.source := by
  by_cases hs : sig.source = ""
  · exact Or.inl hs
  · right
    simp only [updateSignalStep, if_neg hs]
    by_cases hg : (ensureBucket ((lookupEntry st sig.source).getD defaultPerf) vol
          ).lastActivePeriod ≠ some period ∨
        (ensureBucket ((lookupEntry st sig.source).getD defaultPerf) vol).total = 0
    · rw [if_pos hg]
      obtain ⟨htot, hact, -, -⟩ := updateOnePerf_spec
        (ensureBucket ((lookupEntry st sig.source).getD defaultPerf) vol) sig a period vol
        conf conc chaos _ rfl
      refine ⟨_, lookupEntry_setEntry_self _ _ _, hact, rfl, ?_, ?_⟩
      · show (updateOnePerf _ sig a period vol conf conc chaos).total ≠ 0
        rw [htot]
        exact Nat.succ_ne_zero _
      · exact lookupVol_updateOnePerf _ sig a period vol conf conc chaos
    · rw [if_neg hg]
      push_neg at hg
      refine ⟨_, lookupEntry_setEntry_self _ _ _, hg.1, rfl, hg.2, ?_⟩
      show lookupVol (ensureBucket _ vol).performanceByVolatility vol ≠ none
      exact ensureBucket_hasBucket _ _

theorem step_id_of_inv (a : BS) (period : ℤ) (vol : String) (conf : ℚ) (conc chaos : Bool)
    (st : SigPerfState) (sig : ContribSignal)
    (h : StepInv period vol st sig.source) :
    updateSignalStep a period vol conf conc chaos st sig = st := by
  by_cases hs : sig.source = ""
  · simp [updateSignalStep, hs]
  · rcases h with h | ⟨p, hp, h1, h2, h3, h4⟩
    · exact absurd h hs
    simp only [updateSignalStep, if_neg hs, hp, Option.getD_some]
    rw [ensureBucket_of_has p vol h4]
    rw [if_neg (by push_neg; exact ⟨h1, h3⟩ :
      ¬(p.lastActivePeriod ≠ some period ∨ p.total = 0))]
    rw [show ({ p with lastUpdatePeriod := some period } : PerfRecord) = p by
      rw [← h2]]
    exact setEntry_eq_of_lookup st sig.source p hp

theorem step_preserves_inv (a : BS) (period : ℤ) (vol : String) (conf : ℚ)
    (conc chaos : Bool) (st : SigPerfState) (src : String) (sig : ContribSignal)
    (h : StepInv period vol st src) :
    StepInv period vol (updateSignalStep a period vol conf conc chaos st sig) src := by
  by_cases hs : sig.source = ""
  · rwa [show updateSignalStep a period vol conf conc chaos st sig = st by
      simp [updateSignalStep, hs]]
  · by_cases he : sig.source = src
    · rw [step_id_of_inv a period vol conf conc chaos st sig (he ▸ h)]
      exact h
    · rcases h with h | ⟨p, hp, h1, h2, h3, h4⟩
      · exact Or.inl h
      · right
        refine ⟨p, ?_, h1, h2, h3, h4⟩
        simp only [updateSignalStep, if_neg hs]
        split
        · rw [lookupEntry_setEntry_ne st src sig.source _ he]
          exact hp
        · rw [lookupEntry_setEntry_ne st src sig.source _ he]
          exact hp

theorem foldl_step_preserves_inv (a : BS) (period : ℤ) (vol : String) (conf : ℚ)
    (conc chaos : Bool) (l : List ContribSignal) (st : SigPerfState) (src : String)
    (h : StepInv period vol st src) :
    StepInv period vol (l.foldl (updateSignalStep a period vol conf conc chaos) st) src := by
  induction l generalizing st with
  | nil => exact h
  | cons s t ih =>
    exact ih _ (step_preserves_inv a period vol conf conc chaos st src s h)

theorem foldl_step_inv_all (a : BS) (period : ℤ) (vol : String) (conf : ℚ)
    (conc chaos : Bool) (l : List ContribSignal) (st : SigPerfState) :
    ∀ sig ∈ l, StepInv period vol
      (l.foldl (updateSignalStep a period vol conf conc chaos) st) sig.source := by
  induction l generalizing st with
  | nil => intro sig hmem; cases hmem
  | cons s t ih =>
    intro sig hmem
    rcases List.mem_cons.mp hmem with hEq | hmem'
    · subst hEq
      exact foldl_step_preserves_inv a period vol conf conc chaos t _ sig.source
        (step_inv_self a period vol conf conc chaos st sig)
    · exact ih _ sig hmem'

theorem foldl_step_id (a : BS) (period : ℤ) (vol : String) (conf : ℚ) (conc chaos : Bool)
    (l : List ContribSignal) (st : SigPerfState)
    (h : ∀ sig ∈ l, StepInv period vol st sig.source) :
    l.foldl (updateSignalStep a period vol conf conc chaos) st = st := by
  induction l with
  | nil => rfl
  | cons s t ih =>
    rw [List.foldl_cons,
      step_id_of_inv a period vol conf conc chaos st s (h s (List.mem_cons_self s t))]
    exact ih (fun sig hm => h sig (List.mem_cons_of_mem s hm))

/-- **C8**: `updateSignalPerformance` is idempotent against duplicate calls
for the same period: re-running the call with the same contributing
signals, outcome, period id, and context on its own result leaves every
source's performance record (and the whole table) unchanged — the
`lastActivePeriod !== periodFull || total === 0` guard makes the second
pass a no-op. -/
theorem update_signal_performance_idempotent (signals : List ContribSignal)
    (actualOutcome : Option BS) (period : ℤ) (vol : String) (conf : ℚ)
    (conc chaos : Bool) (st : SigPerfState) :
    updateSignalPerformance signals actualOutcome period vol conf conc chaos
        (updateSignalPerformance signals actualOutcome period vol conf conc chaos st) =
      updateSignalPerformance signals actualOutcome period vol conf conc chaos st := by
  cases actualOutcome with
  | none => rfl
  | some a =>
    by_cases hnil : signals = []
    · subst hnil
      rfl
    · simp only [updateSignalPerformance, if_neg hnil]
      exact foldl_step_id a period vol conf conc chaos signals _
        (foldl_step_inv_all a period vol conf conc chaos signals st)

/-! ### C1 / C2 — confidence bounds and the forced paths of the entry point -/

theorem primeConf_bounds (h : ℕ) : 1 ≤ primeConf h ∧ primeConf h ≤ 5/4 := by
  unfold primeConf getPrimeTimeSession
  split_ifs <;> simp <;> norm_num

theorem extFactor_bounds (env : Env) : 0 < extFactor env ∧ extFactor env ≤ 10605/10000 := by
  have hW : ∀ i : Fin 6, 0 < weatherFactor i ∧ weatherFactor i ≤ 101/100 := by decide
  have hN : ∀ i : Fin 5, 0 < newsFactor i ∧ newsFactor i ≤ 105/100 := by decide
  have hM : ∀ i : Fin 4, 0 < mktVolFactor i ∧ mktVolFactor i ≤ 1 := by decide
  obtain ⟨hw1, hw2⟩ := hW env.weatherIdx
  obtain ⟨hn1, hn2⟩ := hN env.newsIdx
  obtain ⟨hm1, hm2⟩ := hM env.mktVolIdx
  unfold extFactor
  constructor
  · exact mul_pos (mul_pos hw1 hn1) hm1
  · calc weatherFactor env.weatherIdx * newsFactor env.newsIdx * mktVolFactor env.mktVolIdx
        ≤ (101/100) * (105/100) * 1 := by
          apply mul_le_mul (mul_le_mul hw2 hn2 (le_of_lt hn1) (by norm_num)) hm2
            (le_of_lt hm1)
          positivity
      _ = 10605/10000 := by norm_num

theorem consensus_factor_bounds (signals : List AdjSignal) (str : String) :
    4/10 ≤ (analyzePredictionConsensus signals str).factor ∧
    (analyzePredictionConsensus signals str).factor ≤ 16/10 := by
  simp only [analyzePredictionConsensus]
  split
  · norm_num
  · exact ⟨le_max_left _ _, max_le (by norm_num) (min_le_left _ _)⟩

theorem consistency_bounds (l : List AdjSignal) :
    0 ≤ analyzeSignalConsistency l ∧ analyzeSignalConsistency l ≤ 1 := by
  simp only [analyzeSignalConsistency]
  split
  · norm_num
  · split
    · norm_num
    · rename_i h2
      constructor
      · positivity
      · have hpos : 0 < (((l.filter (·.prediction = BS.big)).length +
            (l.filter (·.prediction = BS.small)).length : ℕ) : ℚ) := by
          exact_mod_cast Nat.pos_of_ne_zero h2
        rw [div_le_one hpos]
        exact_mod_cast max_le (Nat.le_add_right _ _) (Nat.le_add_left _ _)

theorem advProbs_bounds (ctx : TrendContext) (es : String) :
    0 ≤ (analyzeAdvancedMarketRegime ctx es).bullTrend ∧
    0 ≤ (analyzeAdvancedMarketRegime ctx es).bearTrend ∧
    (analyzeAdvancedMarketRegime ctx es).bullTrend +
      (analyzeAdvancedMarketRegime ctx es).bearTrend ≤ 1 := by
  simp only [analyzeAdvancedMarketRegime]
  split_ifs <;> norm_num

theorem uncertainty_nonneg (isT : Bool) (volat : String) (sIs : Bool) (sR eS : String)
    (cs : ℚ) (d : ℕ) (g : ℚ) (iR : Bool) (dS : String)
    (hcs0 : 0 ≤ cs) (hcs1 : cs ≤ 1) :
    0 ≤ calculateUncertaintyScore isT volat sIs sR eS cs d g iR dS := by
  unfold calculateUncertaintyScore
  refine add_nonneg (add_nonneg (add_nonneg (add_nonneg (add_nonneg (add_nonneg (add_nonneg
    (add_nonneg ?_ ?_) ?_) ?_) ?_) ?_) ?_) ?_) ?_
  · split_ifs <;> norm_num
  · split_ifs <;> norm_num
  · split_ifs <;> norm_num
  · split_ifs <;> norm_num
  · split_ifs <;> nlinarith
  · split_ifs <;> positivity
  · split_ifs <;> norm_num
  · split_ifs <;> norm_num
  · split_ifs <;> nlinarith

theorem foldl_add_nonneg (l : List AdjSignal) : ∀ init : ℚ, 0 ≤ init →
    (∀ s ∈ l, 0 ≤ s.adjustedWeight) →
    0 ≤ l.foldl (fun a s => a + s.adjustedWeight) init := by
  induction l with
  | nil =>
    intro init h0 _
    simpa using h0
  | cons s t ih =>
    intro init h0 h
    simp only [List.foldl_cons]
    exact ih _ (add_nonneg h0 (h s (List.mem_cons_self s t)))
      (fun x hx => h x (List.mem_cons_of_mem s hx))

theorem sumWeights_nonneg (l : List AdjSignal) (h : ∀ s ∈ l, 0 ≤ s.adjustedWeight) :
    0 ≤ sumWeights l :=
  foldl_add_nonneg l 0 le_rfl h

theorem mem_buildValidSignals_weight (raw : List RawSignal) (pt : List String) (aggr : ℚ)
    (period : ℤ) (vol : String) (n : ℕ) (str : String) (st : SigPerfState) (s : AdjSignal)
    (h : s ∈ (buildValidSignals raw pt aggr period vol n str st).1) :
    MIN_ABSOLUTE_WEIGHT < s.adjustedWeight := by
  simp only [buildValidSignals, List.mem_filter, decide_eq_true_eq, gt_iff_lt] at h
  exact h.2

theorem buildValidSignals_factor (raw : List RawSignal) (pt : List String) (aggr : ℚ)
    (period : ℤ) (vol : String) (n : ℕ) (str : String) (st : SigPerfState) :
    4/10 ≤ (buildValidSignals raw pt aggr period vol n str st).2.1.factor ∧
    (buildValidSignals raw pt aggr period vol n str st).2.1.factor ≤ 16/10 :=
  consensus_factor_bounds (buildSignals raw pt aggr period vol n st).1 str

theorem rawConfidence_bounds (b s : ℚ) (hb : 0 ≤ b) (hs : 0 ≤ s) :
    1/2 ≤ rawConfidence b s ∧ rawConfidence b s ≤ 1 := by
  unfold rawConfidence
  split_ifs with h
  · constructor
    · rw [le_div_iff h]
      rcases le_total b s with hbs | hbs
      · rw [max_eq_right hbs]
        linarith
      · rw [max_eq_left hbs]
        linarith
    · rw [div_le_one h]
      exact max_le (by linarith) (by linarith)
  · norm_num

theorem boosted_bounds (c ptc ext : ℚ) (hc1 : 1/2 ≤ c) (hc2 : c ≤ 1)
    (hp1 : 1 ≤ ptc) (hp2 : ptc ≤ 5/4) (he1 : 0 < ext) (he2 : ext ≤ 10605/10000) :
    1/2 ≤ boostedConfidence c ptc ext ∧ boostedConfidence c ptc ext ≤ 3721/3200 := by
  unfold boostedConfidence
  have h1 : 0 ≤ c - 1/2 := by linarith
  have hpe : ptc * ext ≤ (5/4) * (10605/10000) :=
    mul_le_mul hp2 he2 (le_of_lt he1) (by norm_num)
  have hpe0 : 0 ≤ ptc * ext := mul_nonneg (by linarith) (le_of_lt he1)
  have hprod : (c - 1/2) * (ptc * ext) ≤ (1/2) * ((5/4) * (10605/10000)) :=
    mul_le_mul (by linarith) hpe hpe0 (by norm_num)
  have hprod0 : 0 ≤ (c - 1/2) * (ptc * ext) := mul_nonneg h1 hpe0
  constructor
  · nlinarith [hprod0]
  · nlinarith [hprod]

theorem compressed_bounds (c u B : ℚ) (hc1 : 1/2 ≤ c) (hc2 : c ≤ B) (hu : 0 ≤ u) :
    1/2 ≤ compressedConfidence c u ∧ compressedConfidence c u ≤ B := by
  unfold compressedConfidence
  have h1 : min 1 (u/120) ≤ 1 := min_le_left _ _
  have h2 : (0:ℚ) ≤ min 1 (u/120) := le_min (by norm_num) (by positivity)
  have h3 : 0 ≤ (c - 1/2) * (1 - min 1 (u/120)) :=
    mul_nonneg (by linarith) (by linarith)
  have h4 : (c - 1/2) * (1 - min 1 (u/120)) ≤ c - 1/2 :=
    mul_le_of_le_one_right (by linarith) (by linarith)
  constructor
  · linarith
  · linarith

theorem jitter_bounds (j : ℚ) (h0 : 0 ≤ j) (h1 : j < 1) :
    49/100 ≤ forcedJitterConfidence j ∧ forcedJitterConfidence j ≤ 51/100 := by
  unfold forcedJitterConfidence
  constructor <;> nlinarith

theorem clampDisplay_bounds (c : ℚ) :
    1/1000 ≤ clampDisplay c ∧ clampDisplay c ≤ 999/1000 :=
  ⟨le_max_left _ _, max_le (by norm_num) (min_le_left _ _)⟩

theorem clampDisplay_sum (c : ℚ) : clampDisplay c + clampDisplay (1 - c) = 1 := by
  unfold clampDisplay
  rcases le_total c (1/1000) with h | h
  · rw [min_eq_right (by linarith : c ≤ 999/1000), max_eq_left h,
      min_eq_left (by linarith : (999:ℚ)/1000 ≤ 1 - c),
      max_eq_right (by norm_num : (1:ℚ)/1000 ≤ 999/1000)]
    norm_num
  · rcases le_total c (999/1000) with h2 | h2
    · rw [min_eq_right h2, max_eq_right h,
        min_eq_right (by linarith : 1 - c ≤ 999/1000),
        max_eq_right (by linarith : (1:ℚ)/1000 ≤ 1 - c)]
      ring
    · rw [min_eq_left h2, max_eq_right (by norm_num : (1:ℚ)/1000 ≤ 999/1000),
        min_eq_right (by linarith : 1 - c ≤ 999/1000),
        max_eq_left (by linarith : 1 - c ≤ 1/1000)]
      norm_num

theorem display_sum (D : BS) (c : ℚ) :
    clampDisplay (if D = BS.big then c else 1 - c) +
      clampDisplay (if D = BS.small then c else 1 - c) = 1 := by
  cases D with
  | big =>
    simp only [if_pos rfl, if_neg (by decide : ¬(BS.big = BS.small))]
    exact clampDisplay_sum c
  | small =>
    simp only [if_neg (by decide : ¬(BS.small = BS.big)), if_pos rfl]
    have h := clampDisplay_sum (1 - c)
    rw [show (1 : ℚ) - (1 - c) = c by ring] at h
    exact h

theorem pipeline_conf_bounds (env : Env) (b s u pq thr : ℚ)
    (hb : 0 ≤ b) (hs : 0 ≤ s) (hu : 0 ≤ u) (hj0 : 0 ≤ env.jitter) (hj1 : env.jitter < 1) :
    49/100 ≤ (if u ≥ thr ∨ pq < 20/100 then forcedJitterConfidence env.jitter
        else compressedConfidence (boostedConfidence (rawConfidence b s)
          (primeConf env.istHour) (extFactor env)) u) ∧
    (if u ≥ thr ∨ pq < 20/100 then forcedJitterConfidence env.jitter
        else compressedConfidence (boostedConfidence (rawConfidence b s)
          (primeConf env.istHour) (extFactor env)) u) ≤ 3721/3200 := by
  obtain ⟨hr1, hr2⟩ := rawConfidence_bounds b s hb hs
  obtain ⟨hp1, hp2⟩ := primeConf_bounds env.istHour
  obtain ⟨he1, he2⟩ := extFactor_bounds env
  obtain ⟨hb1, hb2⟩ := boosted_bounds _ _ _ hr1 hr2 hp1 hp2 he1 he2
  obtain ⟨hc1, hc2⟩ := compressed_bounds _ u (3721/3200) hb1 hb2 hu
  obtain ⟨hj1', hj2'⟩ := jitter_bounds env.jitter hj0 hj1
  split_ifs with h
  · exact ⟨hj1', by linarith⟩
  · exact ⟨by linarith, hc2⟩

theorem mainFusion_bounds (env : Env) (trendCtx : TrendContext) (sIs : Bool)
    (sR eS : String) (iR : Bool) (dS : String) (acc : ℚ) (validSignals : List AdjSignal)
    (consensus : Consensus) (tp : List String)
    (hw : ∀ x ∈ validSignals, 0 ≤ x.adjustedWeight)
    (hcf1 : 4/10 ≤ consensus.factor) (hcf2 : consensus.factor ≤ 16/10)
    (hj0 : 0 ≤ env.jitter) (hj1 : env.jitter < 1) :
    1/1000 ≤ (mainFusion env trendCtx sIs sR eS iR dS acc validSignals consensus
        tp).bigConfidence ∧
    (mainFusion env trendCtx sIs sR eS iR dS acc validSignals consensus
        tp).bigConfidence ≤ 999/1000 ∧
    1/1000 ≤ (mainFusion env trendCtx sIs sR eS iR dS acc validSignals consensus
        tp).smallConfidence ∧
    (mainFusion env trendCtx sIs sR eS iR dS acc validSignals consensus
        tp).smallConfidence ≤ 999/1000 ∧
    (mainFusion env trendCtx sIs sR eS iR dS acc validSignals consensus
        tp).bigConfidence +
      (mainFusion env trendCtx sIs sR eS iR dS acc validSignals consensus
        tp).smallConfidence = 1 ∧
    49/100 ≤ (mainFusion env trendCtx sIs sR eS iR dS acc validSignals consensus
        tp).finalConfidence ∧
    (mainFusion env trendCtx sIs sR eS iR dS acc validSignals consensus
        tp).finalConfidence ≤ 3721/3200 := by
  have hadv := advProbs_bounds trendCtx eS
  have hbS : 0 ≤ sumWeights (validSignals.filter (·.prediction = BS.big)) *
      (1 + (analyzeAdvancedMarketRegime trendCtx eS).bullTrend -
        (analyzeAdvancedMarketRegime trendCtx eS).bearTrend) * consensus.factor := by
    refine mul_nonneg (mul_nonneg ?_ ?_) ?_
    · exact sumWeights_nonneg _ (fun x hx => hw x (List.mem_of_mem_filter hx))
    · linarith [hadv.1, hadv.2.1, hadv.2.2]
    · linarith
  have hsS : 0 ≤ sumWeights (validSignals.filter (·.prediction = BS.small)) *
      (1 + (analyzeAdvancedMarketRegime trendCtx eS).bearTrend -
        (analyzeAdvancedMarketRegime trendCtx eS).bullTrend) * (2 - consensus.factor) := by
    refine mul_nonneg (mul_nonneg ?_ ?_) ?_
    · exact sumWeights_nonneg _ (fun x hx => hw x (List.mem_of_mem_filter hx))
    · linarith [hadv.1, hadv.2.1, hadv.2.2]
    · linarith
  have hcs := consistency_bounds validSignals
  simp only [mainFusion]
  refine ⟨(clampDisplay_bounds _).1, (clampDisplay_bounds _).2, (clampDisplay_bounds _).1,
    (clampDisplay_bounds _).2, display_sum _ _, ?_, ?_⟩
  · refine (pipeline_conf_bounds env _ _ _ _ _ hbS hsS ?_ hj0 hj1).1
    exact uncertainty_nonneg _ _ _ _ _ _ _ _ _ _ hcs.1 hcs.2
  · refine (pipeline_conf_bounds env _ _ _ _ _ hbS hsS ?_ hj0 hj1).2
    exact uncertainty_nonneg _ _ _ _ _ _ _ _ _ _ hcs.1 hcs.2

/-- **C1** (amended): for every invocation, the two displayed per-class
confidences are each clamped to `[0.001, 0.999]` and sum exactly to 1, and
the returned `finalConfidence` lies in `[0.49, 3721/3200]` — the upper end
exceeds 1 (the claim's `[0,1]` fails, see the counterexample) because the
prime-time and external-data confidence multipliers (≤ 1.25 and ≤ 1.0605)
are applied before the uncertainty compression.  (Quantified over the
abstract analyzer outputs and pre-stage context; `jitter` is the
`Math.random()` draw in `[0, 1)`.) -/
theorem confidence_bounds (env : Env) (history : List HistoryRecord)
    (trendCtx : TrendContext) (sIs : Bool) (sR eS : String) (iR : Bool) (dS : String)
    (pt : List String) (pa : ℚ) (raw : List RawSignal) (stp : SigPerfState) (period : ℤ)
    (acc : ℚ) (tp : List String) (hj0 : 0 ≤ env.jitter) (hj1 : env.jitter < 1) :
    1/1000 ≤ (ultraAIPredictCore env history trendCtx sIs sR eS iR dS pt pa raw stp period
        acc tp).1.bigConfidence ∧
    (ultraAIPredictCore env history trendCtx sIs sR eS iR dS pt pa raw stp period
        acc tp).1.bigConfidence ≤ 999/1000 ∧
    1/1000 ≤ (ultraAIPredictCore env history trendCtx sIs sR eS iR dS pt pa raw stp period
        acc tp).1.smallConfidence ∧
    (ultraAIPredictCore env history trendCtx sIs sR eS iR dS pt pa raw stp period
        acc tp).1.smallConfidence ≤ 999/1000 ∧
    (ultraAIPredictCore env history trendCtx sIs sR eS iR dS pt pa raw stp period
        acc tp).1.bigConfidence +
      (ultraAIPredictCore env history trendCtx sIs sR eS iR dS pt pa raw stp period
        acc tp).1.smallConfidence = 1 ∧
    49/100 ≤ (ultraAIPredictCore env history trendCtx sIs sR eS iR dS pt pa raw stp period
        acc tp).1.finalConfidence ∧
    (ultraAIPredictCore env history trendCtx sIs sR eS iR dS pt pa raw stp period
        acc tp).1.finalConfidence ≤ 3721/3200 := by
  simp only [ultraAIPredictCore]
  split_ifs with h1 h2
  · simp only [forcedReturn]
    norm_num
  · simp only [forcedReturn]
    norm_num
  · exact mainFusion_bounds env trendCtx sIs sR eS iR dS acc _ _ tp
      (fun x hx => le_of_lt (lt_trans (by norm_num [MIN_ABSOLUTE_WEIGHT])
        (mem_buildValidSignals_weight _ _ _ _ _ _ _ _ x hx)))
      (buildValidSignals_factor _ _ _ _ _ _ _ _).1
      (buildValidSignals_factor _ _ _ _ _ _ _ _).2 hj0 hj1

/-- **C1, counterexample to the claim as stated**: 52 confirmed records,
a calm stable context, three agreeing analyzer votes of weight 0.2 from
three categories, no prime time (IST hour 0), and the most favourable
external-data draws (Clear weather × Strongly-Positive news × Low market
volatility = ×1.0605): the returned `finalConfidence` is
`0.5 + 0.5 × 1.0605 = 1.03025 > 1`, on a non-forced cycle. -/
theorem confidence_exceeds_one :
    1 < (ultraAIPredictCore sampleEnv sampleHistory sampleTrendCtx true
        "Trend appears stable." "STABLE_MODERATE" false "STABLE" ["all"] 1 sampleRawSignals
        [] 1 (1/2) []).1.finalConfidence ∧
    (ultraAIPredictCore sampleEnv sampleHistory sampleTrendCtx true
        "Trend appears stable." "STABLE_MODERATE" false "STABLE" ["all"] 1 sampleRawSignals
        [] 1 (1/2) []).1.isForcedPrediction = false := by
  constructor
  · decide
  · decide

/-- **C1, witness** for the amended theorem at the counterexample's
concrete cycle. -/
theorem confidence_bounds_witness :
    1/1000 ≤ (ultraAIPredictCore sampleEnv sampleHistory sampleTrendCtx true
        "Trend appears stable." "STABLE_MODERATE" false "STABLE" ["all"] 1 sampleRawSignals
        [] 1 (1/2) []).1.bigConfidence ∧
    (ultraAIPredictCore sampleEnv sampleHistory sampleTrendCtx true
        "Trend appears stable." "STABLE_MODERATE" false "STABLE" ["all"] 1 sampleRawSignals
        [] 1 (1/2) []).1.bigConfidence ≤ 999/1000 ∧
    1/1000 ≤ (ultraAIPredictCore sampleEnv sampleHistory sampleTrendCtx true
        "Trend appears stable." "STABLE_MODERATE" false "STABLE" ["all"] 1 sampleRawSignals
        [] 1 (1/2) []).1.smallConfidence ∧
    (ultraAIPredictCore sampleEnv sampleHistory sampleTrendCtx true
        "Trend appears stable." "STABLE_MODERATE" false "STABLE" ["all"] 1 sampleRawSignals
        [] 1 (1/2) []).1.smallConfidence ≤ 999/1000 ∧
    (ultraAIPredictCore sampleEnv sampleHistory sampleTrendCtx true
        "Trend appears stable." "STABLE_MODERATE" false "STABLE" ["all"] 1 sampleRawSignals
        [] 1 (1/2) []).1.bigConfidence +
      (ultraAIPredictCore sampleEnv sampleHistory sampleTrendCtx true
        "Trend appears stable." "STABLE_MODERATE" false "STABLE" ["all"] 1 sampleRawSignals
        [] 1 (1/2) []).1.smallConfidence = 1 ∧
    49/100 ≤ (ultraAIPredictCore sampleEnv sampleHistory sampleTrendCtx true
        "Trend appears stable." "STABLE_MODERATE" false "STABLE" ["all"] 1 sampleRawSignals
        [] 1 (1/2) []).1.finalConfidence ∧
    (ultraAIPredictCore sampleEnv sampleHistory sampleTrendCtx true
        "Trend appears stable." "STABLE_MODERATE" false "STABLE" ["all"] 1 sampleRawSignals
        [] 1 (1/2) []).1.finalConfidence ≤ 3721/3200 :=
  confidence_bounds sampleEnv sampleHistory sampleTrendCtx true "Trend appears stable."
    "STABLE_MODERATE" false "STABLE" ["all"] 1 sampleRawSignals [] 1 (1/2) []
    (by norm_num [sampleEnv]) (by norm_num [sampleEnv])

/-- **C2**: with fewer than 52 confirmed records (entries with non-null
`actual` and defined `actualNumber`), or with no surviving valid signal,
the cycle short-circuits to the forced near-50/50 result:
`isForcedPrediction = true`, `confidenceLevel = 1`, `finalConfidence`
within `[0.49, 0.51]` (exactly 0.5 on these paths), and the diagnostic
trail carries the `InsufficientHistory_ForceRandom` /
`NoValidSignals_ForceRandom` marker; the embedding is a total function, so
no error is thrown. -/
theorem forced_paths (env : Env) (history : List HistoryRecord) (trendCtx : TrendContext)
    (sIs : Bool) (sR eS : String) (iR : Bool) (dS : String) (pt : List String) (pa : ℚ)
    (raw : List RawSignal) (stp : SigPerfState) (period : ℤ) (acc : ℚ) (tp : List String)
    (h : (history.filter (fun p => p.actual ≠ none ∧ p.actualNumber ≠ none)).length < 52 ∨
      (buildValidSignals raw pt (cycleAggression env pa sIs iR eS dS) period
        trendCtx.volatility history.length trendCtx.strength stp).1 = []) :
    (ultraAIPredictCore env history trendCtx sIs sR eS iR dS pt pa raw stp period acc
        tp).1.isForcedPrediction = true ∧
    (ultraAIPredictCore env history trendCtx sIs sR eS iR dS pt pa raw stp period acc
        tp).1.confidenceLevel = 1 ∧
    49/100 ≤ (ultraAIPredictCore env history trendCtx sIs sR eS iR dS pt pa raw stp period
        acc tp).1.finalConfidence ∧
    (ultraAIPredictCore env history trendCtx sIs sR eS iR dS pt pa raw stp period acc
        tp).1.finalConfidence ≤ 51/100 ∧
    ("InsufficientHistory_ForceRandom" ∈ (ultraAIPredictCore env history trendCtx sIs sR eS
        iR dS pt pa raw stp period acc tp).1.trail ∨
     "NoValidSignals_ForceRandom" ∈ (ultraAIPredictCore env history trendCtx sIs sR eS iR
        dS pt pa raw stp period acc tp).1.trail) := by
  simp only [ultraAIPredictCore]
  by_cases h52 :
      (history.filter (fun p => p.actual ≠ none ∧ p.actualNumber ≠ none)).length < 52
  · rw [if_pos h52]
    refine ⟨rfl, rfl, by norm_num [forcedReturn], by norm_num [forcedReturn], Or.inl ?_⟩
    simp [forcedReturn]
  · rcases h with h | h
    · exact absurd h h52
    · rw [if_neg h52, if_pos h]
      refine ⟨rfl, rfl, by norm_num [forcedReturn], by norm_num [forcedReturn], Or.inr ?_⟩
      simp [forcedReturn]

/-- **C2, witness**: the empty history has 0 < 52 confirmed records. -/
theorem forced_paths_witness :
    (ultraAIPredictCore sampleEnv [] sampleTrendCtx true "x" "STABLE_MODERATE" false
        "STABLE" ["all"] 1 sampleRawSignals [] 1 (1/2) []).1.isForcedPrediction = true ∧
    (ultraAIPredictCore sampleEnv [] sampleTrendCtx true "x" "STABLE_MODERATE" false
        "STABLE" ["all"] 1 sampleRawSignals [] 1 (1/2) []).1.confidenceLevel = 1 ∧
    49/100 ≤ (ultraAIPredictCore sampleEnv [] sampleTrendCtx true "x" "STABLE_MODERATE"
        false "STABLE" ["all"] 1 sampleRawSignals [] 1 (1/2) []).1.finalConfidence ∧
    (ultraAIPredictCore sampleEnv [] sampleTrendCtx true "x" "STABLE_MODERATE" false
        "STABLE" ["all"] 1 sampleRawSignals [] 1 (1/2) []).1.finalConfidence ≤ 51/100 ∧
    ("InsufficientHistory_ForceRandom" ∈ (ultraAIPredictCore sampleEnv [] sampleTrendCtx
        true "x" "STABLE_MODERATE" false "STABLE" ["all"] 1 sampleRawSignals [] 1 (1/2)
        []).1.trail ∨
     "NoValidSignals_ForceRandom" ∈ (ultraAIPredictCore sampleEnv [] sampleTrendCtx true
        "x" "STABLE_MODERATE" false "STABLE" ["all"] 1 sampleRawSignals [] 1 (1/2)
        []).1.trail) :=
  forced_paths sampleEnv [] sampleTrendCtx true "x" "STABLE_MODERATE" false "STABLE"
    ["all"] 1 sampleRawSignals [] 1 (1/2) [] (Or.inl (by decide))

end RatReducible

end Pred
